import Mathlib

/-!
Verification of the reconciliation engine in utils.py (functions
perform_reconciliation, aggregate_dataframes, create_composite_key,
identify_mismatches) against its natural-language specification.

The pandas dataframes are embedded as lists of association-list rows
together with an explicit column list (a pandas frame has a column set
that exists independently of the rows, and a cell may be null).  Cell
values are a tagged scalar: null, text, or a number (rationals subsume
the integer values the claims exercise; Python str(int) agrees with the
canonical string of an integral rational).  The positional record ids
that the source stores in the bookkeeping columns _rec_id_1 / _rec_id_2
are carried structurally as the Nat index of each row, and the merge
indicator column _merge is carried as the constructor of MergedRow.
-/

namespace Reco

/-- A scalar cell value of a dataframe: null/missing, text, or numeric. -/
inductive Value where
  | null : Value
  | str : String → Value
  | num : ℚ → Value
deriving DecidableEq, Repr

/-- The stringification the source applies everywhere before comparing:
pandas fillna('').astype(str).  Null becomes the empty string; text is
itself; an integral number prints like a Python int. -/
def Value.toStr : Value → String
  | .null => ""
  | .str s => s
  | .num q => if q.den = 1 then toString q.num else toString q

/-- A dataframe row: an association list from column name to value.
Column names are unique within a row by construction (pandas columns). -/
abbrev Row := List (String × Value)

/-- Reading a cell.  A column absent from the row reads as null; the
source always guards frame-level column membership separately (with
col in df.columns), mirrored by the explicit cols list of DataFrame. -/
def Row.get (r : Row) (c : String) : Value :=
  match r.find? (fun p => p.1 = c) with
  | some p => p.2
  | none => Value.null

/-- A pandas dataframe: a column list plus ordered rows. -/
structure DataFrame where
  cols : List String
  rows : List Row
deriving DecidableEq, Repr

/-- Python zip(*key_parts) on the column-wise lists produced by
create_composite_key: all parts have length n (the row count), and the
i-th output row collects the i-th entry of every part. -/
def zipRows (parts : List (List String)) (n : Nat) : List (List String) :=
  (List.range n).map fun i => parts.map fun p => p.getD i ""

/-- The column-wise key-part construction of create_composite_key
(utils.py lines 159-169): for each key column present in the frame,
the fillna('').astype(str) image of the column; for an absent column,
a column of empty strings. -/
def keyParts (df : DataFrame) (key_columns : List String) : List (List String) :=
  key_columns.map fun c =>
    if c ∈ df.cols then df.rows.map fun r => (r.get c).toStr
    else List.replicate df.rows.length ""

/-- The composite key strings create_composite_key returns on the happy
path: the per-column strings zipped row-wise and joined with the pipe
delimiter. -/
def composite_key_strings (df : DataFrame) (key_columns : List String) : List String :=
  (zipRows (keyParts df key_columns) df.rows.length).map (String.intercalate "|")

/-- create_composite_key (utils.py lines 145-169): raises ValueError on
an empty key-column list, otherwise produces one key string per row. -/
def create_composite_key (df : DataFrame) (key_columns : List String) :
    Except String (List String) :=
  if key_columns.isEmpty then .error "No key columns provided"
  else .ok (composite_key_strings df key_columns)

/-- The per-row formula the spec states for one composite key: the
key columns' strings joined with the pipe delimiter in order, an absent
column contributing the empty string. -/
def rowKey (cols : List String) (key_columns : List String) (r : Row) : String :=
  String.intercalate "|" (key_columns.map fun c => if c ∈ cols then (r.get c).toStr else "")

theorem length_composite_key_strings (df : DataFrame) (ks : List String) :
    (composite_key_strings df ks).length = df.rows.length := by
  simp [composite_key_strings, zipRows]

theorem composite_key_strings_eq_map (df : DataFrame) (ks : List String) :
    composite_key_strings df ks = df.rows.map (rowKey df.cols ks) := by
  apply List.ext_getElem
  · simp [composite_key_strings, zipRows]
  · intro i h1 h2
    have hi : i < df.rows.length := by
      simpa [composite_key_strings, zipRows] using h1
    simp only [composite_key_strings, zipRows, List.getElem_map, List.getElem_range, rowKey]
    congr 1
    simp only [keyParts, List.map_map]
    apply List.map_congr_left
    intro c _
    simp only [Function.comp]
    by_cases hc : c ∈ df.cols
    · simp only [hc, if_true]
      rw [List.getD_eq_getElem?_getD]
      simp [List.getElem?_map, List.getElem?_eq_getElem hi]
    · simp only [hc, if_false]
      rw [List.getD_eq_getElem?_getD]
      simp [List.getElem?_replicate, hi]

/-- A row of one frame entering the merge: its positional record id
(the _rec_id column of utils.py lines 39-41), the row, and its
composite key. -/
structure Keyed where
  idx : Nat
  row : Row
  key : String
deriving DecidableEq, Repr

/-- One row of the merged frame of utils.py lines 54-58; the
constructor is the _merge indicator column. -/
inductive MergedRow where
  | both (i j : Nat) (a b : Row) (k : String)
  | left_only (i : Nat) (a : Row) (k : String)
  | right_only (j : Nat) (b : Row) (k : String)
deriving DecidableEq, Repr

/-- A key-matched (A-row, shadow-B-row) pair of the join. -/
structure MatchedPair where
  i : Nat
  j : Nat
  a : Row
  b : Row
  key : String
deriving DecidableEq, Repr

def MergedRow.bothPair : MergedRow → Option MatchedPair
  | .both i j a b k => some ⟨i, j, a, b, k⟩
  | _ => none

def MergedRow.leftRec : MergedRow → Option (Nat × Row)
  | .left_only i a _ => some (i, a)
  | _ => none

def MergedRow.rightRec : MergedRow → Option (Nat × Row)
  | .right_only j b _ => some (j, b)
  | _ => none

/-- The rows of a frame tagged with their positional record id and
their composite key (utils.py lines 39-49). -/
def keyedRows (df : DataFrame) (key_cols : List String) : List Keyed :=
  List.zipWith (fun p k => ⟨p.1, p.2, k⟩) df.rows.enum (composite_key_strings df key_cols)

/-- pd.merge(df1_copy, df2_mapped, on='_composite_key', how='outer',
indicator=True) (utils.py lines 54-58): every key-equal (A,B) pair in
A-major order, a left_only row for an A row with no key counterpart,
followed by the right_only B rows.  (pandas emits the same multiset of
rows; no claim depends on the merged row order.) -/
def outerMerge (A B : List Keyed) : List MergedRow :=
  (A.flatMap fun a =>
    let ms := B.filter fun b => b.key = a.key
    if ms.isEmpty then [.left_only a.idx a.row a.key]
    else ms.map fun b => .both a.idx b.idx a.row b.row a.key)
  ++ ((B.filter fun b => !(A.any fun a => a.key = b.key)).map fun b =>
    .right_only b.idx b.row b.key)

theorem zipWith_enumFrom_map {α β γ : Type _} (f : Nat × α → β → γ) (g : α → β) :
    ∀ (n : Nat) (l : List α),
      List.zipWith f (List.enumFrom n l) (l.map g) = (List.enumFrom n l).map fun p => f p (g p.2)
  | _, [] => rfl
  | n, a :: l => by
    simp only [List.enumFrom, List.map_cons, List.zipWith_cons_cons]
    rw [zipWith_enumFrom_map f g (n + 1) l]

/-- Structure of keyedRows: the enumerated rows, each with the per-row
key formula. -/
theorem keyedRows_eq (df : DataFrame) (ks : List String) :
    keyedRows df ks = df.rows.enum.map fun p => ⟨p.1, p.2, rowKey df.cols ks p.2⟩ := by
  rw [keyedRows, composite_key_strings_eq_map, List.enum]
  exact zipWith_enumFrom_map _ _ 0 df.rows

theorem mem_keyedRows {df : DataFrame} {ks : List String} {i : Nat} {r : Row} {k : String} :
    (⟨i, r, k⟩ : Keyed) ∈ keyedRows df ks ↔
      ∃ h : i < df.rows.length, r = df.rows[i] ∧ k = rowKey df.cols ks df.rows[i] := by
  rw [keyedRows_eq]
  constructor
  · intro hx
    rcases List.mem_map.mp hx with ⟨p, hp, hpe⟩
    have hsome : df.rows[p.1]? = some p.2 := List.mem_enum_iff_getElem?.mp hp
    rcases List.getElem?_eq_some.mp hsome with ⟨hlt, hval⟩
    simp only [Keyed.mk.injEq] at hpe
    rcases hpe with ⟨hi, hr, hk⟩
    subst hi; subst hr; subst hk
    exact ⟨hlt, hval.symm, by rw [hval]⟩
  · rintro ⟨h, hr, hk⟩
    subst hr; subst hk
    exact List.mem_map.mpr ⟨(i, df.rows[i]),
      List.mem_enum_iff_getElem?.mpr (List.getElem?_eq_getElem h), rfl⟩

theorem length_keyedRows (df : DataFrame) (ks : List String) :
    (keyedRows df ks).length = df.rows.length := by
  rw [keyedRows_eq]; simp

/-- The key-matched pairs of the merged frame (the rows with _merge
equal to 'both', utils.py line 61): one pair for every key-equal
(A-row, B-row) combination, in A-major order. -/
theorem outerMerge_bothPairs (A B : List Keyed) :
    (outerMerge A B).filterMap MergedRow.bothPair =
      A.flatMap fun a => (B.filter fun b => b.key = a.key).map fun b =>
        ⟨a.idx, b.idx, a.row, b.row, a.key⟩ := by
  rw [outerMerge, List.filterMap_append]
  have hright : ((B.filter fun b => !(A.any fun a => a.key = b.key)).map fun b =>
      MergedRow.right_only b.idx b.row b.key).filterMap MergedRow.bothPair = [] := by
    rw [List.filterMap_map]
    apply List.filterMap_eq_nil_iff.mpr
    intro b _
    rfl
  rw [hright, List.append_nil, List.filterMap_flatMap]
  apply List.flatMap_congr
  intro a _
  by_cases h : (B.filter fun b => b.key = a.key).isEmpty
  · rw [List.isEmpty_iff] at h
    simp [h, MergedRow.bothPair]
  · simp only [h, Bool.false_eq_true, if_false]
    rw [List.filterMap_map, ← List.filterMap_eq_map
      (fun b : Keyed => MatchedPair.mk a.idx b.idx a.row b.row a.key)]
    rfl

theorem flatMap_ite_singleton {α β : Type _} (p : α → Bool) (f : α → β) :
    ∀ l : List α, (l.flatMap fun a => if p a then [f a] else []) = (l.filter p).map f
  | [] => rfl
  | a :: l => by
    by_cases h : p a <;>
      simp [List.flatMap_cons, h, flatMap_ite_singleton p f l, List.filter_cons]

/-- The left_only rows of the merged frame: one for each A row whose
key has no counterpart in the shadow frame, in A order. -/
theorem outerMerge_leftRecs (A B : List Keyed) :
    (outerMerge A B).filterMap MergedRow.leftRec =
      (A.filter fun a => (B.filter fun b => b.key = a.key).isEmpty).map fun a =>
        (a.idx, a.row) := by
  rw [outerMerge, List.filterMap_append]
  have hright : ((B.filter fun b => !(A.any fun a => a.key = b.key)).map fun b =>
      MergedRow.right_only b.idx b.row b.key).filterMap MergedRow.leftRec = [] := by
    rw [List.filterMap_map]
    apply List.filterMap_eq_nil_iff.mpr
    intro b _
    rfl
  rw [hright, List.append_nil, List.filterMap_flatMap]
  rw [← flatMap_ite_singleton (fun a => (B.filter fun b => b.key = a.key).isEmpty)
    (fun a => (a.idx, a.row)) A]
  apply List.flatMap_congr
  intro a _
  by_cases h : (B.filter fun b => b.key = a.key).isEmpty
  · simp [h, MergedRow.leftRec]
  · simp only [h, Bool.false_eq_true, if_false]
    rw [List.filterMap_map]
    apply List.filterMap_eq_nil_iff.mpr
    intro b _
    rfl

/-- The right_only rows of the merged frame: one for each shadow row
whose key has no counterpart in A, in B order. -/
theorem outerMerge_rightRecs (A B : List Keyed) :
    (outerMerge A B).filterMap MergedRow.rightRec =
      (B.filter fun b => !(A.any fun a => a.key = b.key)).map fun b => (b.idx, b.row) := by
  rw [outerMerge, List.filterMap_append]
  have hleft : (A.flatMap fun a =>
      let ms := B.filter fun b => b.key = a.key
      if ms.isEmpty then [MergedRow.left_only a.idx a.row a.key]
      else ms.map fun b => MergedRow.both a.idx b.idx a.row b.row a.key).filterMap
        MergedRow.rightRec = [] := by
    rw [List.filterMap_flatMap]
    apply List.flatMap_eq_nil_iff.mpr
    intro a _
    by_cases h : (B.filter fun b => b.key = a.key).isEmpty
    · simp [h, MergedRow.rightRec]
    · simp only [h, Bool.false_eq_true, if_false]
      rw [List.filterMap_map]
      apply List.filterMap_eq_nil_iff.mpr
      intro b _
      rfl
  rw [hleft, List.nil_append, List.filterMap_map,
    ← List.filterMap_eq_map (fun b : Keyed => (b.idx, b.row))]
  rfl

/-- One output row of identify_mismatches: the composite key plus, for
every compared column, the raw File1 value, the raw File2 value, and
the contents of the (col)_diff cell (none models the None the source
writes for a column with no difference on that row). -/
structure MismatchRow where
  key : String
  fields : List (String × Value × Value × Option String)
deriving DecidableEq, Repr

/-- The diff text of utils.py lines 208-211. -/
def diffText (va vb : Value) : String :=
  "File1: " ++ va.toStr ++ " | File2: " ++ vb.toStr

/-- Python's col.startswith('_'): the first character is an
underscore.  (Stated on the character list, which the kernel can
evaluate; String.startsWith itself is an opaque extern function.) -/
def startsWithUnderscore (c : String) : Bool :=
  c.data.head? = some '_'

/-- The columns identify_mismatches actually compares (utils.py lines
189-195): a column of columns_to_compare is skipped when its name
starts with an underscore or when (col)_file1 / (col)_file2 is not a
merged-frame column.  pd.merge suffixes exactly the columns present in
both frames (other than the join key), so (col)_file1 and (col)_file2
both exist iff col is a column of df1_copy and of df2_mapped. -/
def comparedCols (columns_to_compare : List String) (cols1 cols2m : List String) :
    List String :=
  columns_to_compare.filter fun c =>
    !startsWithUnderscore c && decide (c ∈ cols1) && decide (c ∈ cols2m)

/-- Whether a matched pair disagrees in a given column under the
string-normalized comparison of utils.py lines 199-200. -/
def colMismatch (p : MatchedPair) (c : String) : Bool :=
  (p.a.get c).toStr != (p.b.get c).toStr

/-- Whether a matched pair has at least one differing compared column
(the has_mismatch tracker of utils.py lines 186-203). -/
def pairHasMismatch (cc : List String) (p : MatchedPair) : Bool :=
  cc.any fun c => colMismatch p c

/-- identify_mismatches (utils.py lines 171-229): keeps the matched
rows with at least one differing compared column and, for each, records
the composite key and per compared column the two raw values and the
diff cell (filled for a differing column, None otherwise). -/
def identify_mismatches (matched : List MatchedPair) (columns_to_compare : List String)
    (cols1 cols2m : List String) : List MismatchRow :=
  let cc := comparedCols columns_to_compare cols1 cols2m
  (matched.filter fun p => pairHasMismatch cc p).map fun p =>
    { key := p.key,
      fields := cc.map fun c =>
        (c, p.a.get c, p.b.get c,
          if colMismatch p c then some (diffText (p.a.get c) (p.b.get c)) else none) }

/-- df2_mapped (utils.py lines 32-37): the shadow of df2 with only the
mapped columns, renamed to their df1-side names; a mapping whose
target is not a df2 column is silently dropped. -/
def usableMappings (mappings : List (String × String)) (df2cols : List String) :
    List (String × String) :=
  mappings.filter fun p => decide (p.2 ∈ df2cols)

def mapRow (mappings : List (String × String)) (df2cols : List String) (r : Row) : Row :=
  (usableMappings mappings df2cols).map fun p => (p.1, r.get p.2)

def mapDf2 (df2 : DataFrame) (mappings : List (String × String)) : DataFrame :=
  { cols := (usableMappings mappings df2.cols).map fun p => p.1,
    rows := df2.rows.map fun r => mapRow mappings df2.cols r }

/-- The numeric reduction applied to one group column (pandas
DataFrame.agg with one of sum/mean/count/min/max).  sum and mean ignore
nulls and act on the numeric values; count counts the non-null cells.
No theorem or concrete artifact in this file inspects an aggregated
cell value — only group structure and row counts — so reductions over
non-numeric cells (pandas concatenates strings under sum, and orders
them under min/max) are not modelled beyond a numeric or null
placeholder. -/
def aggApply (func : String) (vs : List Value) : Value :=
  let nums := vs.filterMap fun v => match v with | .num q => some q | _ => none
  let nonNull := vs.filter fun v => v ≠ Value.null
  match func with
  | "sum" => .num (nums.foldl (· + ·) 0)
  | "mean" => if nums.length = 0 then .null
              else .num ((nums.foldl (· + ·) 0) / (nums.length : ℚ))
  | "count" => .num (nonNull.length : ℚ)
  | "min" => match nums with
             | [] => .null
             | q :: qs => .num (qs.foldl min q)
  | "max" => match nums with
             | [] => .null
             | q :: qs => .num (qs.foldl max q)
  | _ => .null

/-- df.groupby(group_cols).agg(agg_dict).reset_index() (utils.py lines
127-128).  pandas groupby defaults to dropna=True: a row with a null in
any grouping column belongs to no group and is dropped.  One output row
per distinct group-column value tuple of the surviving rows, carrying
the group values and the aggregated columns.  (pandas sorts the group
keys; the first-occurrence order used here carries the same rows, and
no claim depends on group order.)  This model is asserted only on the
inputs where pandas defines the operation: with an EMPTY agg
dictionary, pandas .agg raises ValueError (no objects to concatenate),
and a grouping column missing from the frame raises KeyError — neither
error path is reproduced here, so every aggregation theorem carries
hypotheses restricting to group columns present in the frame and a
non-empty aggregation dictionary on each side. -/
def groupbyAgg (df : DataFrame) (gcols : List String) (aggDict : List (String × String)) :
    DataFrame :=
  let keep := df.rows.filter fun r => gcols.all fun c => decide (r.get c ≠ Value.null)
  let tuples := (keep.map fun r => gcols.map fun c => r.get c).dedup
  { cols := gcols ++ aggDict.map fun p => p.1,
    rows := tuples.map fun t =>
      let members := keep.filter fun r => (gcols.map fun c => r.get c) = t
      gcols.zip t ++ aggDict.map fun p =>
        (p.1, aggApply p.2 (members.map fun r => r.get p.1)) }

/-- The aggregation dictionary for df1 (utils.py lines 114-117): the
agg_functions entries whose column exists in df1 and is not a grouping
column. -/
def agg_dict_df1 (df1 : DataFrame) (agg_columns_file1 : List String)
    (agg_functions : List (String × String)) : List (String × String) :=
  agg_functions.filter fun p =>
    decide (p.1 ∈ df1.cols) && decide (p.1 ∉ agg_columns_file1)

/-- The aggregation dictionary for df2 (utils.py lines 119-124): for
each agg_functions entry whose column is mapped, the mapped df2-side
column when it exists in df2 and is not a grouping column. -/
def agg_dict_df2 (df2 : DataFrame) (column_mappings : List (String × String))
    (agg_columns_file2 : List String) (agg_functions : List (String × String)) :
    List (String × String) :=
  agg_functions.filterMap fun p =>
    match column_mappings.lookup p.1 with
    | some c2 => if c2 ∈ df2.cols ∧ c2 ∉ agg_columns_file2 then some (c2, p.2) else none
    | none => none

/-- aggregate_dataframes (utils.py lines 97-143). -/
def aggregate_dataframes (df1 df2 : DataFrame)
    (column_mappings key_columns : List (String × String))
    (agg_columns_file1 agg_columns_file2 : List String)
    (agg_functions : List (String × String)) :
    DataFrame × DataFrame × List (String × String) × List (String × String) :=
  let aggregated_df1 := groupbyAgg df1 agg_columns_file1
    (agg_dict_df1 df1 agg_columns_file1 agg_functions)
  let aggregated_df2 := groupbyAgg df2 agg_columns_file2
    (agg_dict_df2 df2 column_mappings agg_columns_file2 agg_functions)
  let updated_key_columns := agg_columns_file1.filterMap fun c1 =>
    (column_mappings.lookup c1).map fun c2 => (c1, c2)
  let updated_column_mappings := column_mappings.filter fun p =>
    decide (p.1 ∈ aggregated_df1.cols) && decide (p.2 ∈ aggregated_df2.cols)
  (aggregated_df1, aggregated_df2, updated_column_mappings, updated_key_columns)

/-- The statistics block of utils.py lines 82-88. -/
structure Stats where
  matched : Nat
  mismatched : Nat
  only_in_file1 : Nat
  only_in_file2 : Nat
deriving DecidableEq, Repr

/-- The result dictionary of utils.py lines 90-95. -/
structure RecoResult where
  stats : Stats
  mismatched_data : List MismatchRow
  only_in_file1_data : List Row
  only_in_file2_data : List Row
deriving DecidableEq, Repr

/-- The aggregation guard of utils.py line 26: Python's truthiness of
use_aggregation and the three aggregation arguments. -/
def effectiveInputs (df1 df2 : DataFrame)
    (column_mappings key_columns : List (String × String)) (use_aggregation : Bool)
    (agg_columns_file1 agg_columns_file2 : List String)
    (agg_functions : List (String × String)) :
    DataFrame × DataFrame × List (String × String) × List (String × String) :=
  if use_aggregation && !agg_columns_file1.isEmpty && !agg_columns_file2.isEmpty
      && !agg_functions.isEmpty then
    aggregate_dataframes df1 df2 column_mappings key_columns
      agg_columns_file1 agg_columns_file2 agg_functions
  else (df1, df2, column_mappings, key_columns)

/-- The merged frame of a run (utils.py lines 54-58), from the
(possibly aggregated) df1 copy and the mapped shadow of df2. -/
def mergedOf (df1c df2m : DataFrame) (key_cols : List String) : List MergedRow :=
  outerMerge (keyedRows df1c key_cols) (keyedRows df2m key_cols)

/-- The key-matched pairs of a run's merged frame. -/
def matchedPairsOf (df1c df2m : DataFrame) (key_cols : List String) : List MatchedPair :=
  (mergedOf df1c df2m key_cols).filterMap MergedRow.bothPair

/-- The (record id, row) pairs of the left_only merged rows. -/
def leftOnlyOf (df1c df2m : DataFrame) (key_cols : List String) : List (Nat × Row) :=
  (mergedOf df1c df2m key_cols).filterMap MergedRow.leftRec

/-- The (record id, row) pairs of the right_only merged rows. -/
def rightOnlyOf (df1c df2m : DataFrame) (key_cols : List String) : List (Nat × Row) :=
  (mergedOf df1c df2m key_cols).filterMap MergedRow.rightRec

/-- The body of perform_reconciliation after the aggregation branch
(utils.py lines 32-95): df1orig / df2orig are the caller's original
frames (the source reads the only_in rows back from df1 and df2, not
from the working copies), df1c / df2c / mappings / keyCols the working
inputs after the optional aggregation. -/
def coreResult (df1orig df2orig df1c df2c : DataFrame)
    (mappings keyCols : List (String × String)) : RecoResult :=
  let df2m := mapDf2 df2c mappings
  let key_cols_file1 := keyCols.map fun p => p.1
  let matched := matchedPairsOf df1c df2m key_cols_file1
  let only_in_file1 := leftOnlyOf df1c df2m key_cols_file1
  let only_in_file2 := rightOnlyOf df1c df2m key_cols_file1
  let mismatched_data :=
    identify_mismatches matched (mappings.map fun p => p.1) df1c.cols df2m.cols
  let only_in_file1_data := only_in_file1.map fun p => df1orig.rows.getD p.1 []
  let only_in_file2_data := only_in_file2.map fun p => df2orig.rows.getD p.1 []
  { stats := {
      matched := matched.length - mismatched_data.length,
      mismatched := mismatched_data.length,
      only_in_file1 := only_in_file1.length,
      only_in_file2 := only_in_file2.length },
    mismatched_data := mismatched_data,
    only_in_file1_data := only_in_file1_data,
    only_in_file2_data := only_in_file2_data }

def reconcile_core (df1orig df2orig df1c df2c : DataFrame)
    (mappings keyCols : List (String × String)) : Except String RecoResult :=
  if (keyCols.map fun p => p.1).isEmpty then .error "No key columns provided for matching"
  else .ok (coreResult df1orig df2orig df1c df2c mappings keyCols)

/-- perform_reconciliation (utils.py lines 4-95). -/
def perform_reconciliation (df1 df2 : DataFrame)
    (column_mappings key_columns : List (String × String))
    (use_aggregation : Bool := false)
    (agg_columns_file1 : List String := []) (agg_columns_file2 : List String := [])
    (agg_functions : List (String × String) := []) : Except String RecoResult :=
  let eff := effectiveInputs df1 df2 column_mappings key_columns use_aggregation
    agg_columns_file1 agg_columns_file2 agg_functions
  reconcile_core df1 df2 eff.1 eff.2.1 eff.2.2.1 eff.2.2.2

/-! ### Characterization lemmas for the pipeline stages -/

/-- Occurrences of one key string among a list of key strings. -/
def countKey (keys : List String) (k : String) : Nat :=
  (keys.filter fun x => x = k).length

theorem keys_keyedRows (df : DataFrame) (ks : List String) :
    (keyedRows df ks).map (fun b => b.key) = composite_key_strings df ks := by
  rw [keyedRows_eq, composite_key_strings_eq_map, List.map_map]
  have : ((fun b : Keyed => b.key) ∘ fun p : Nat × Row => Keyed.mk p.1 p.2
      (rowKey df.cols ks p.2)) = (rowKey df.cols ks) ∘ Prod.snd := rfl
  rw [this, ← List.map_map, List.enum_map_snd]

theorem perform_reconciliation_def (df1 df2 : DataFrame)
    (cm kc : List (String × String)) (ua : Bool) (a1 a2 : List String)
    (af : List (String × String)) :
    perform_reconciliation df1 df2 cm kc ua a1 a2 af =
      reconcile_core df1 df2
        (effectiveInputs df1 df2 cm kc ua a1 a2 af).1
        (effectiveInputs df1 df2 cm kc ua a1 a2 af).2.1
        (effectiveInputs df1 df2 cm kc ua a1 a2 af).2.2.1
        (effectiveInputs df1 df2 cm kc ua a1 a2 af).2.2.2 := rfl

theorem reconcile_core_ok (df1o df2o df1c df2c : DataFrame)
    (mappings keyCols : List (String × String)) (h : keyCols ≠ []) :
    reconcile_core df1o df2o df1c df2c mappings keyCols =
      .ok (coreResult df1o df2o df1c df2c mappings keyCols) := by
  rw [reconcile_core, if_neg]
  simp only [List.isEmpty_eq_true, List.map_eq_nil_iff]
  exact h

/-- Membership of a key-matched pair: exactly the index pairs with
equal composite keys, carrying the two rows and the shared key. -/
theorem mem_matchedPairsOf {dfa dfb : DataFrame} {ks : List String}
    {i j : Nat} {a b : Row} {k : String} :
    (⟨i, j, a, b, k⟩ : MatchedPair) ∈ matchedPairsOf dfa dfb ks ↔
      ∃ (hi : i < dfa.rows.length) (hj : j < dfb.rows.length),
        a = dfa.rows[i] ∧ b = dfb.rows[j] ∧ k = rowKey dfa.cols ks a ∧
        rowKey dfa.cols ks a = rowKey dfb.cols ks b := by
  rw [matchedPairsOf, mergedOf, outerMerge_bothPairs]
  constructor
  · intro hx
    rcases List.mem_flatMap.mp hx with ⟨x, hxA, hmem⟩
    rcases List.mem_map.mp hmem with ⟨y, hyB, hye⟩
    rcases List.mem_filter.mp hyB with ⟨hyB', hkey⟩
    obtain ⟨x1, x2, x3⟩ := x
    obtain ⟨y1, y2, y3⟩ := y
    simp only [MatchedPair.mk.injEq] at hye
    rcases hye with ⟨h1, h2, h3, h4, h5⟩
    subst h1; subst h2; subst h3; subst h4; subst h5
    rcases mem_keyedRows.mp hxA with ⟨hia, hra, hka⟩
    rcases mem_keyedRows.mp hyB' with ⟨hib, hrb, hkb⟩
    simp only [decide_eq_true_eq] at hkey
    refine ⟨hia, hib, hra, hrb, by rw [hka, hra], ?_⟩
    rw [hra, hrb, ← hka, ← hkb, hkey]
  · rintro ⟨hi, hj, ha, hb, hk, heq⟩
    apply List.mem_flatMap.mpr
    refine ⟨⟨i, a, rowKey dfa.cols ks a⟩, ?_, ?_⟩
    · exact mem_keyedRows.mpr ⟨hi, ha, by rw [← ha]⟩
    · apply List.mem_map.mpr
      refine ⟨⟨j, b, rowKey dfb.cols ks b⟩, ?_, ?_⟩
      · apply List.mem_filter.mpr
        refine ⟨mem_keyedRows.mpr ⟨hj, hb, by rw [← hb]⟩, ?_⟩
        simp [heq]
      · simp [hk]

theorem filter_key_isEmpty_eq {α : Type _} (f : α → String) (k : String) :
    ∀ l : List α, (l.filter fun x => f x = k).isEmpty = !((l.map f).contains k)
  | [] => rfl
  | x :: l => by
    by_cases h : f x = k
    · simp [List.filter_cons, h, List.contains_cons]
    · rw [List.filter_cons, if_neg (by simpa using h), filter_key_isEmpty_eq f k l,
        List.map_cons, List.contains_cons]
      have hbeq : (k == f x) = false := by
        simp only [beq_eq_false_iff_ne, ne_eq]
        intro hk; exact h hk.symm
      rw [hbeq, Bool.false_or]

/-- The left_only records: the enumerated df1 rows whose composite key
does not occur among the shadow frame's composite keys, in order. -/
theorem leftOnlyOf_eq (dfa dfb : DataFrame) (ks : List String) :
    leftOnlyOf dfa dfb ks = dfa.rows.enum.filter fun q =>
      !(composite_key_strings dfb ks).contains (rowKey dfa.cols ks q.2) := by
  rw [leftOnlyOf, mergedOf, outerMerge_leftRecs, keyedRows_eq dfa, List.filter_map]
  have hmap : ∀ l : List (Nat × Row),
      (l.map fun p : Nat × Row => Keyed.mk p.1 p.2 (rowKey dfa.cols ks p.2)).map
        (fun a : Keyed => (a.idx, a.row)) = l := by
    intro l
    rw [List.map_map]
    have : ((fun a : Keyed => (a.idx, a.row)) ∘ fun p : Nat × Row =>
        Keyed.mk p.1 p.2 (rowKey dfa.cols ks p.2)) = id := by
      funext p; cases p; rfl
    rw [this, List.map_id]
  rw [hmap]
  congr 1
  funext q
  simp only [Function.comp]
  rw [← keys_keyedRows dfb ks]
  exact filter_key_isEmpty_eq (fun b : Keyed => b.key) _ (keyedRows dfb ks)

theorem any_key_eq_contains {α : Type _} (f : α → String) (k : String) :
    ∀ l : List α, (l.any fun x => f x = k) = (l.map f).contains k
  | [] => rfl
  | x :: l => by
    rw [List.any_cons, List.map_cons, List.contains_cons, any_key_eq_contains f k l]
    congr 1
    by_cases h : f x = k
    · simp [h]
    · have h1 : (decide (f x = k)) = false := by simpa using h
      have h2 : (k == f x) = false := by
        simp only [beq_eq_false_iff_ne, ne_eq]
        intro hk; exact h hk.symm
      rw [h1, h2]

/-- The right_only records: the enumerated shadow rows whose composite
key does not occur among df1's composite keys, in order. -/
theorem rightOnlyOf_eq (dfa dfb : DataFrame) (ks : List String) :
    rightOnlyOf dfa dfb ks = dfb.rows.enum.filter fun q =>
      !(composite_key_strings dfa ks).contains (rowKey dfb.cols ks q.2) := by
  rw [rightOnlyOf, mergedOf, outerMerge_rightRecs, keyedRows_eq dfb, List.filter_map]
  have hmap : ∀ l : List (Nat × Row),
      (l.map fun p : Nat × Row => Keyed.mk p.1 p.2 (rowKey dfb.cols ks p.2)).map
        (fun a : Keyed => (a.idx, a.row)) = l := by
    intro l
    rw [List.map_map]
    have : ((fun a : Keyed => (a.idx, a.row)) ∘ fun p : Nat × Row =>
        Keyed.mk p.1 p.2 (rowKey dfb.cols ks p.2)) = id := by
      funext p; cases p; rfl
    rw [this, List.map_id]
  rw [hmap]
  congr 1
  funext q
  simp only [Function.comp]
  rw [← keys_keyedRows dfa ks,
    ← any_key_eq_contains (fun a : Keyed => a.key) _ (keyedRows dfa ks)]

theorem countKey_map {α : Type _} (f : α → String) (k : String) (l : List α) :
    countKey (l.map f) k = (l.filter fun x => f x = k).length := by
  rw [countKey, List.filter_map, List.length_map]
  rfl

/-- Total pair count of the join: for each A row, the number of B rows
sharing its key. -/
theorem matchedPairsOf_length (dfa dfb : DataFrame) (ks : List String) :
    (matchedPairsOf dfa dfb ks).length =
      ((composite_key_strings dfa ks).map fun k =>
        countKey (composite_key_strings dfb ks) k).sum := by
  rw [matchedPairsOf, mergedOf, outerMerge_bothPairs, List.length_flatMap,
    ← keys_keyedRows dfa ks, ← keys_keyedRows dfb ks, List.map_map]
  congr 1
  apply List.map_congr_left
  intro a _
  simp only [Function.comp, List.length_map]
  rw [countKey_map]

theorem both_flatMap_key_count (B : List Keyed) (k : String) :
    ∀ A : List Keyed,
      ((A.flatMap fun a => (B.filter fun b => b.key = a.key).map fun b =>
          MatchedPair.mk a.idx b.idx a.row b.row a.key).filter fun p => p.key = k).length =
        (A.filter fun a => a.key = k).length * (B.filter fun b => b.key = k).length
  | [] => by simp
  | a :: A => by
    rw [List.flatMap_cons, List.filter_append, List.length_append,
      both_flatMap_key_count B k A, List.filter_map, List.length_map, List.filter_cons]
    by_cases h : a.key = k
    · have hconst : ((fun p : MatchedPair => decide (p.key = k)) ∘ fun b : Keyed =>
          MatchedPair.mk a.idx b.idx a.row b.row a.key) = fun _ => true := by
        funext b
        simp [Function.comp, h]
      rw [hconst, List.filter_true, h, if_pos (by simp), List.length_cons, Nat.succ_mul,
        Nat.add_comm]
    · have hconst : ((fun p : MatchedPair => decide (p.key = k)) ∘ fun b : Keyed =>
          MatchedPair.mk a.idx b.idx a.row b.row a.key) = fun _ => false := by
        funext b
        simp [Function.comp, h]
      rw [hconst, List.filter_false, if_neg (by simpa using h)]
      simp

/-- Cartesian expansion: for any key value, the number of joined pairs
with that key is the product of its occurrence counts on the two
sides. -/
theorem matchedPairsOf_key_count (dfa dfb : DataFrame) (ks : List String) (k : String) :
    ((matchedPairsOf dfa dfb ks).filter fun p => p.key = k).length =
      countKey (composite_key_strings dfa ks) k *
        countKey (composite_key_strings dfb ks) k := by
  rw [matchedPairsOf, mergedOf, outerMerge_bothPairs, both_flatMap_key_count,
    ← keys_keyedRows dfa ks, ← keys_keyedRows dfb ks, countKey_map, countKey_map]

theorem identify_mismatches_length (m : List MatchedPair) (ctc : List String)
    (c1 c2 : List String) :
    (identify_mismatches m ctc c1 c2).length =
      (m.filter fun p => pairHasMismatch (comparedCols ctc c1 c2) p).length := by
  rw [identify_mismatches]
  simp

/-- The shape of each emitted mismatch row. -/
def mismatchRowOf (cc : List String) (p : MatchedPair) : MismatchRow :=
  { key := p.key,
    fields := cc.map fun c =>
      (c, p.a.get c, p.b.get c,
        if colMismatch p c then some (diffText (p.a.get c) (p.b.get c)) else none) }

theorem identify_mismatches_eq (m : List MatchedPair) (ctc : List String)
    (c1 c2 : List String) :
    identify_mismatches m ctc c1 c2 =
      (m.filter fun p => pairHasMismatch (comparedCols ctc c1 c2) p).map
        (mismatchRowOf (comparedCols ctc c1 c2)) := rfl

theorem mem_identify_mismatches {m : List MatchedPair} {ctc c1 c2 : List String}
    {r : MismatchRow} :
    r ∈ identify_mismatches m ctc c1 c2 ↔
      ∃ p ∈ m, pairHasMismatch (comparedCols ctc c1 c2) p = true ∧
        r = mismatchRowOf (comparedCols ctc c1 c2) p := by
  rw [identify_mismatches_eq]
  constructor
  · intro hr
    rcases List.mem_map.mp hr with ⟨p, hp, hpe⟩
    rcases List.mem_filter.mp hp with ⟨hpm, hpmm⟩
    exact ⟨p, hpm, hpmm, hpe.symm⟩
  · rintro ⟨p, hpm, hpmm, hre⟩
    exact List.mem_map.mpr ⟨p, List.mem_filter.mpr ⟨hpm, hpmm⟩, hre.symm⟩

theorem contains_eq_false_of_not_mem {l : List String} {a : String} (h : a ∉ l) :
    l.contains a = false := by
  rw [← Bool.not_eq_true]
  intro hc
  exact h (List.elem_iff.mp hc)

/-! ### Claim theorems -/

/-- C5: for every dataset and non-empty ordered key-column list,
create_composite_key succeeds and gives each row the per-column strings
joined with the pipe delimiter in column order, a null value and a
listed-but-absent column both contributing the empty string; and a row
whose single key column is null gets the empty composite key, so when
no shadow key is the empty string that row is classified only_in_A by
perform_reconciliation. -/
theorem C5_composite_key_contract :
    (∀ (df : DataFrame) (ks : List String), ks ≠ [] →
      ∃ out, create_composite_key df ks = .ok out ∧ out.length = df.rows.length ∧
        ∀ i, i < df.rows.length →
          out.getD i "" = String.intercalate "|" (ks.map fun c =>
            if c ∈ df.cols then ((df.rows.getD i []).get c).toStr else "")) ∧
    (∀ (df1 df2 : DataFrame) (cm : List (String × String)) (c c2 : String) (i : Nat),
      i < df1.rows.length → c ∈ df1.cols → (df1.rows.getD i []).get c = Value.null →
      (∀ k ∈ composite_key_strings (mapDf2 df2 cm) [c], k ≠ "") →
      ∃ r, perform_reconciliation df1 df2 cm [(c, c2)] = .ok r ∧
        df1.rows.getD i [] ∈ r.only_in_file1_data) := by
  constructor
  · intro df ks hks
    refine ⟨composite_key_strings df ks, ?_, length_composite_key_strings df ks, ?_⟩
    · rw [create_composite_key, if_neg (by simpa using hks)]
    · intro i hi
      rw [composite_key_strings_eq_map, List.getD_eq_getElem?_getD, List.getElem?_map,
        List.getElem?_eq_getElem hi, List.getD_eq_getElem _ _ hi]
      rfl
  · intro df1 df2 cm c c2 i hi hc hnull hB
    rw [perform_reconciliation_def]
    have heff : effectiveInputs df1 df2 cm [(c, c2)] false [] [] [] =
        (df1, df2, cm, [(c, c2)]) := rfl
    rw [heff]
    rw [reconcile_core_ok df1 df2 df1 df2 cm [(c, c2)] (by simp)]
    refine ⟨_, rfl, ?_⟩
    show df1.rows.getD i [] ∈
      (leftOnlyOf df1 (mapDf2 df2 cm) [c]).map fun p => df1.rows.getD p.1 []
    apply List.mem_map.mpr
    refine ⟨(i, df1.rows.getD i []), ?_, rfl⟩
    rw [leftOnlyOf_eq]
    apply List.mem_filter.mpr
    constructor
    · apply List.mem_enum_iff_getElem?.mpr
      rw [List.getD_eq_getElem _ _ hi]
      exact List.getElem?_eq_getElem hi
    · have hkey : rowKey df1.cols [c] (df1.rows.getD i []) = "" := by
        unfold rowKey
        rw [List.map_cons, List.map_nil, if_pos hc, hnull]
        rfl
      rw [hkey, contains_eq_false_of_not_mem fun hmem => hB "" hmem rfl]
      rfl

def dfC5a : DataFrame := ⟨["id"], [[("id", Value.str "7")]]⟩
def dfC5b1 : DataFrame := ⟨["id"], [[("id", Value.null)]]⟩
def dfC5b2 : DataFrame := ⟨["cid"], [[("cid", Value.str "9")]]⟩

theorem C5_composite_key_contract_witness :
    ((["id"] : List String) ≠ [] ∧
      ∃ out, create_composite_key dfC5a ["id"] = .ok out ∧ out.length = dfC5a.rows.length ∧
        ∀ i, i < dfC5a.rows.length → out.getD i "" = String.intercalate "|"
          (["id"].map fun c => if c ∈ dfC5a.cols then ((dfC5a.rows.getD i []).get c).toStr
            else "")) ∧
    ((0 : Nat) < dfC5b1.rows.length ∧ "id" ∈ dfC5b1.cols ∧
      (dfC5b1.rows.getD 0 []).get "id" = Value.null ∧
      (∀ k ∈ composite_key_strings (mapDf2 dfC5b2 [("id", "cid")]) ["id"], k ≠ "") ∧
      ∃ r, perform_reconciliation dfC5b1 dfC5b2 [("id", "cid")] [("id", "cid")] = .ok r ∧
        dfC5b1.rows.getD 0 [] ∈ r.only_in_file1_data) :=
  ⟨⟨by decide, C5_composite_key_contract.1 dfC5a ["id"] (by decide)⟩,
   ⟨by decide, by decide, by decide, by decide,
    C5_composite_key_contract.2 dfC5b1 dfC5b2 [("id", "cid")] "id" "cid" 0 (by decide)
      (by decide) (by decide) (by decide)⟩⟩

/-- C10: composite-key construction is not injective: with a two-column
key, the A row (k1 = "a|b", k2 = "c") and the B row mapping to
(k1 = "a", k2 = "b|c") have different key-column value tuples but the
same composite key string "a|b|c", and the matcher joins them as one
logical record (no row lands in only_in_A or only_in_B; the single
joined pair is reported, here as a mismatch since the field values
disagree). -/
theorem C10_composite_key_not_injective :
    (((⟨["k1", "k2"], [[("k1", Value.str "a|b"), ("k2", Value.str "c")]]⟩ :
        DataFrame).rows.getD 0 []).get "k1",
      ((⟨["k1", "k2"], [[("k1", Value.str "a|b"), ("k2", Value.str "c")]]⟩ :
        DataFrame).rows.getD 0 []).get "k2") ≠
      (((mapDf2 ⟨["m1", "m2"], [[("m1", Value.str "a"), ("m2", Value.str "b|c")]]⟩
          [("k1", "m1"), ("k2", "m2")]).rows.getD 0 []).get "k1",
        ((mapDf2 ⟨["m1", "m2"], [[("m1", Value.str "a"), ("m2", Value.str "b|c")]]⟩
          [("k1", "m1"), ("k2", "m2")]).rows.getD 0 []).get "k2") ∧
    composite_key_strings
      ⟨["k1", "k2"], [[("k1", Value.str "a|b"), ("k2", Value.str "c")]]⟩
      ["k1", "k2"] = ["a|b|c"] ∧
    composite_key_strings
      (mapDf2 ⟨["m1", "m2"], [[("m1", Value.str "a"), ("m2", Value.str "b|c")]]⟩
        [("k1", "m1"), ("k2", "m2")]) ["k1", "k2"] = ["a|b|c"] ∧
    ∃ r, perform_reconciliation
        ⟨["k1", "k2"], [[("k1", Value.str "a|b"), ("k2", Value.str "c")]]⟩
        ⟨["m1", "m2"], [[("m1", Value.str "a"), ("m2", Value.str "b|c")]]⟩
        [("k1", "m1"), ("k2", "m2")] [("k1", "m1"), ("k2", "m2")] = .ok r ∧
      r.stats.only_in_file1 = 0 ∧ r.stats.only_in_file2 = 0 ∧
      r.stats.matched + r.stats.mismatched = 1 := by
  refine ⟨by decide, by decide, by decide, ?_⟩
  refine ⟨_, rfl, ?_, ?_, ?_⟩ <;> decide

/-- C3 counterexample: on the spec's own mismatch scenario (key id,
A amount 10, B amount 15), the diff annotation the code attaches to the
amount field is "File1: 10 | File2: 15", not "A: 10 | B: 15" as the
claim states. -/
theorem C3_diff_format_counterexample :
    perform_reconciliation
        ⟨["id", "amt", "desc"],
          [[("id", Value.str "1"), ("amt", Value.str "10"), ("desc", Value.str "x")]]⟩
        ⟨["cid", "amount", "description"],
          [[("cid", Value.str "1"), ("amount", Value.str "15"),
            ("description", Value.str "x")]]⟩
        [("id", "cid"), ("amt", "amount"), ("desc", "description")] [("id", "cid")] =
      .ok {
        stats := { matched := 0, mismatched := 1, only_in_file1 := 0, only_in_file2 := 0 },
        mismatched_data := [⟨"1",
          [("id", Value.str "1", Value.str "1", none),
            ("amt", Value.str "10", Value.str "15", some "File1: 10 | File2: 15"),
            ("desc", Value.str "x", Value.str "x", none)]⟩],
        only_in_file1_data := [],
        only_in_file2_data := [] } ∧
      "File1: 10 | File2: 15" ≠ "A: 10 | B: 15" := by
  constructor
  · rfl
  · decide

/-- C3 amended: for every emitted mismatched pair and every compared
column whose normalized values differ, the attached diff annotation is
exactly "File1: <valueA> | File2: <valueB>" (values through the
null-to-empty stringification); in the spec's amount scenario it reads
"File1: 10 | File2: 15". -/
theorem C3_diff_format_amended (m : List MatchedPair) (ctc cols1 cols2m : List String)
    (r : MismatchRow) (hr : r ∈ identify_mismatches m ctc cols1 cols2m) :
    ∀ e ∈ r.fields, (e.2.1).toStr ≠ (e.2.2.1).toStr →
      e.2.2.2 = some ("File1: " ++ (e.2.1).toStr ++ " | File2: " ++ (e.2.2.1).toStr) := by
  rcases mem_identify_mismatches.mp hr with ⟨p, _, _, hre⟩
  subst hre
  intro e he hne
  rcases List.mem_map.mp he with ⟨c, _, hce⟩
  subst hce
  simp only at hne ⊢
  have hcm : colMismatch p c = true := by
    rw [colMismatch, bne_iff_ne]
    exact hne
  rw [if_pos hcm]
  rfl

theorem C3_diff_format_amended_witness :
    (mismatchRowOf (comparedCols ["v"] ["v"] ["v"])
        ⟨0, 0, [("v", Value.str "1")], [("v", Value.str "2")], "k"⟩ ∈
      identify_mismatches [⟨0, 0, [("v", Value.str "1")], [("v", Value.str "2")], "k"⟩]
        ["v"] ["v"] ["v"]) ∧
    (("v", Value.str "1", Value.str "2", some "File1: 1 | File2: 2") ∈
      (mismatchRowOf (comparedCols ["v"] ["v"] ["v"])
        ⟨0, 0, [("v", Value.str "1")], [("v", Value.str "2")], "k"⟩).fields) ∧
    (Value.str "1").toStr ≠ (Value.str "2").toStr ∧
    some ("File1: " ++ (Value.str "1").toStr ++ " | File2: " ++ (Value.str "2").toStr) =
      some "File1: 1 | File2: 2" :=
  ⟨by decide, by decide, by decide, by
    have := C3_diff_format_amended
      [⟨0, 0, [("v", Value.str "1")], [("v", Value.str "2")], "k"⟩] ["v"] ["v"] ["v"]
      (mismatchRowOf (comparedCols ["v"] ["v"] ["v"])
        ⟨0, 0, [("v", Value.str "1")], [("v", Value.str "2")], "k"⟩)
      (by decide) ("v", Value.str "1", Value.str "2", some "File1: 1 | File2: 2")
      (by decide) (by decide)
    rw [← this]⟩

/-- C9: every emitted mismatch row arises from a matched pair: its
fields enumerate every compared column, retaining the raw File1 and
File2 values, and the diff cell of a field is None exactly when the two
normalized values agree (a no-difference column carries no diff text,
it is not zeroed). -/
theorem C9_no_diff_columns_absent (m : List MatchedPair) (ctc cols1 cols2m : List String)
    (r : MismatchRow) (hr : r ∈ identify_mismatches m ctc cols1 cols2m) :
    ∃ p ∈ m, r.key = p.key ∧
      r.fields = (comparedCols ctc cols1 cols2m).map (fun c =>
        (c, p.a.get c, p.b.get c,
          if colMismatch p c then some (diffText (p.a.get c) (p.b.get c)) else none)) ∧
      ∀ e ∈ r.fields, (e.2.2.2 = none ↔ (e.2.1).toStr = (e.2.2.1).toStr) := by
  rcases mem_identify_mismatches.mp hr with ⟨p, hp, _, hre⟩
  subst hre
  refine ⟨p, hp, rfl, rfl, ?_⟩
  intro e he
  rcases List.mem_map.mp he with ⟨c, _, hce⟩
  subst hce
  simp only
  by_cases hcm : colMismatch p c = true
  · rw [if_pos hcm]
    rw [colMismatch, bne_iff_ne] at hcm
    simp [hcm]
  · rw [if_neg hcm]
    rw [colMismatch, bne_iff_ne] at hcm
    simp only [not_not] at hcm
    simp [hcm]

theorem C9_no_diff_columns_absent_witness :
    ((mismatchRowOf (comparedCols ["u", "v"] ["u", "v"] ["u", "v"])
        ⟨0, 0, [("u", Value.str "s"), ("v", Value.str "1")],
          [("u", Value.str "s"), ("v", Value.str "2")], "k"⟩) ∈
      identify_mismatches
        [⟨0, 0, [("u", Value.str "s"), ("v", Value.str "1")],
          [("u", Value.str "s"), ("v", Value.str "2")], "k"⟩]
        ["u", "v"] ["u", "v"] ["u", "v"]) ∧
    ∃ p ∈ [⟨0, 0, [("u", Value.str "s"), ("v", Value.str "1")],
        [("u", Value.str "s"), ("v", Value.str "2")], "k"⟩],
      (mismatchRowOf (comparedCols ["u", "v"] ["u", "v"] ["u", "v"])
        ⟨0, 0, [("u", Value.str "s"), ("v", Value.str "1")],
          [("u", Value.str "s"), ("v", Value.str "2")], "k"⟩).key = MatchedPair.key p ∧
      (mismatchRowOf (comparedCols ["u", "v"] ["u", "v"] ["u", "v"])
        ⟨0, 0, [("u", Value.str "s"), ("v", Value.str "1")],
          [("u", Value.str "s"), ("v", Value.str "2")], "k"⟩).fields =
        (comparedCols ["u", "v"] ["u", "v"] ["u", "v"]).map (fun c =>
          (c, p.a.get c, p.b.get c,
            if colMismatch p c then some (diffText (p.a.get c) (p.b.get c)) else none)) ∧
      ∀ e ∈ (mismatchRowOf (comparedCols ["u", "v"] ["u", "v"] ["u", "v"])
          ⟨0, 0, [("u", Value.str "s"), ("v", Value.str "1")],
            [("u", Value.str "s"), ("v", Value.str "2")], "k"⟩).fields,
        (e.2.2.2 = none ↔ (e.2.1).toStr = (e.2.2.1).toStr) :=
  ⟨by decide,
    C9_no_diff_columns_absent
      [⟨0, 0, [("u", Value.str "s"), ("v", Value.str "1")],
        [("u", Value.str "s"), ("v", Value.str "2")], "k"⟩]
      ["u", "v"] ["u", "v"] ["u", "v"]
      (mismatchRowOf (comparedCols ["u", "v"] ["u", "v"] ["u", "v"])
        ⟨0, 0, [("u", Value.str "s"), ("v", Value.str "1")],
          [("u", Value.str "s"), ("v", Value.str "2")], "k"⟩)
      (by decide)⟩

/-- C4 counterexample: a run that is a caller mistake twice over (the
aggregation-function map is empty although aggregation is requested,
and no column mappings are supplied) raises nothing: it returns a
normal result.  Only the empty key set raises. -/
theorem C4_configuration_error_counterexample :
    perform_reconciliation
        ⟨["g", "v"], [[("g", Value.str "1"), ("v", Value.str "a")]]⟩
        ⟨["g", "w"], [[("g", Value.str "1"), ("w", Value.str "a")]]⟩
        [] [("g", "g")] true ["g"] ["g"] [] =
      .ok {
        stats := { matched := 0, mismatched := 0, only_in_file1 := 1, only_in_file2 := 1 },
        mismatched_data := [],
        only_in_file1_data := [[("g", Value.str "1"), ("v", Value.str "a")]],
        only_in_file2_data := [[("g", Value.str "1"), ("w", Value.str "a")]] } := by
  rfl

/-- C4 amended: perform_reconciliation raises exactly one error, the
ValueError for an empty effective key set (in particular an empty key
set without aggregation); an aggregation request with empty group
columns or an empty aggregation-function map skips aggregation
silently, and an empty column-mapping set is accepted and produces a
normal result. -/
theorem C4_error_behaviour_amended :
    (∀ (df1 df2 : DataFrame) (cm : List (String × String)) (a1 a2 : List String)
        (af : List (String × String)),
      perform_reconciliation df1 df2 cm [] false a1 a2 af =
        .error "No key columns provided for matching") ∧
    (∀ (df1 df2 : DataFrame) (cm kc : List (String × String)) (a1 a2 : List String)
        (af : List (String × String)),
      a1 = [] ∨ a2 = [] ∨ af = [] →
      perform_reconciliation df1 df2 cm kc true a1 a2 af =
        perform_reconciliation df1 df2 cm kc false a1 a2 af) ∧
    (∀ (df1 df2 : DataFrame) (kc : List (String × String)), kc ≠ [] →
      ∃ r, perform_reconciliation df1 df2 [] kc false [] [] [] = .ok r) := by
  refine ⟨?_, ?_, ?_⟩
  · intro df1 df2 cm a1 a2 af
    rfl
  · intro df1 df2 cm kc a1 a2 af h
    rw [perform_reconciliation_def, perform_reconciliation_def]
    have : effectiveInputs df1 df2 cm kc true a1 a2 af =
        effectiveInputs df1 df2 cm kc false a1 a2 af := by
      rcases h with h | h | h <;> subst h <;> simp [effectiveInputs]
    rw [this]
  · intro df1 df2 kc h
    rw [perform_reconciliation_def]
    have heff : effectiveInputs df1 df2 [] kc false [] [] [] = (df1, df2, [], kc) := rfl
    rw [heff, reconcile_core_ok df1 df2 df1 df2 [] kc h]
    exact ⟨_, rfl⟩

theorem C4_error_behaviour_amended_witness :
    (perform_reconciliation
        (⟨["g"], [[("g", Value.str "1")]]⟩ : DataFrame)
        (⟨["g"], [[("g", Value.str "2")]]⟩ : DataFrame) [("g", "g")] [] false [] [] [] =
      .error "No key columns provided for matching") ∧
    ((["x"] : List String) = [] ∨ ([] : List String) = [] ∨
        ([("v", "sum")] : List (String × String)) = []) ∧
    (perform_reconciliation
        (⟨["g"], [[("g", Value.str "1")]]⟩ : DataFrame)
        (⟨["g"], [[("g", Value.str "2")]]⟩ : DataFrame)
        [("g", "g")] [("g", "g")] true ["x"] [] [("v", "sum")] =
      perform_reconciliation
        (⟨["g"], [[("g", Value.str "1")]]⟩ : DataFrame)
        (⟨["g"], [[("g", Value.str "2")]]⟩ : DataFrame)
        [("g", "g")] [("g", "g")] false ["x"] [] [("v", "sum")]) ∧
    (([("g", "g")] : List (String × String)) ≠ [] ∧
      ∃ r, perform_reconciliation
          (⟨["g"], [[("g", Value.str "1")]]⟩ : DataFrame)
          (⟨["g"], [[("g", Value.str "2")]]⟩ : DataFrame) [] [("g", "g")] false [] [] [] =
        .ok r) :=
  ⟨C4_error_behaviour_amended.1
      (⟨["g"], [[("g", Value.str "1")]]⟩ : DataFrame)
      (⟨["g"], [[("g", Value.str "2")]]⟩ : DataFrame) [("g", "g")] [] [] [],
   Or.inr (Or.inl rfl),
   C4_error_behaviour_amended.2.1
      (⟨["g"], [[("g", Value.str "1")]]⟩ : DataFrame)
      (⟨["g"], [[("g", Value.str "2")]]⟩ : DataFrame)
      [("g", "g")] [("g", "g")] ["x"] [] [("v", "sum")] (Or.inr (Or.inl rfl)),
   by decide,
   C4_error_behaviour_amended.2.2
      (⟨["g"], [[("g", Value.str "1")]]⟩ : DataFrame)
      (⟨["g"], [[("g", Value.str "2")]]⟩ : DataFrame) [("g", "g")] (by decide)⟩

theorem contains_eq_false_iff {l : List String} {a : String} :
    l.contains a = false ↔ a ∉ l := by
  constructor
  · intro h hm
    have ht : l.contains a = true := List.elem_iff.mpr hm
    rw [h] at ht
    simp at ht
  · exact contains_eq_false_of_not_mem

theorem not_contains_iff {l : List String} {a : String} :
    (!l.contains a) = true ↔ a ∉ l := by
  rw [Bool.not_eq_true']
  exact contains_eq_false_iff

/-- C2: the matcher is a full outer equi-join on composite key between
the df1 working copy and the shadow of df2 (mapped columns renamed to
their df1-side names): (1) an (A-row, shadow-row) pair is matched iff
their composite keys are equal; (2) for every key value, the number of
matched pairs carrying it is the product of its occurrence counts on
the two sides (Cartesian expansion within a duplicated key group);
(3) an A row is left_only iff its key occurs nowhere in the shadow;
(4) a shadow row (hence, by positional record id, its original B row)
is right_only iff its key occurs nowhere in A. -/
theorem C2_outer_equijoin (df1c df2c : DataFrame) (mappings : List (String × String))
    (ks : List String) :
    (∀ i j (hi : i < df1c.rows.length) (hj : j < (mapDf2 df2c mappings).rows.length),
      ((⟨i, j, df1c.rows[i], (mapDf2 df2c mappings).rows[j],
          rowKey df1c.cols ks df1c.rows[i]⟩ : MatchedPair) ∈
            matchedPairsOf df1c (mapDf2 df2c mappings) ks ↔
        rowKey df1c.cols ks df1c.rows[i] =
          rowKey (mapDf2 df2c mappings).cols ks (mapDf2 df2c mappings).rows[j])) ∧
    (∀ k : String,
      ((matchedPairsOf df1c (mapDf2 df2c mappings) ks).filter fun p => p.key = k).length =
        countKey (composite_key_strings df1c ks) k *
          countKey (composite_key_strings (mapDf2 df2c mappings) ks) k) ∧
    (∀ i (hi : i < df1c.rows.length),
      ((i, df1c.rows[i]) ∈ leftOnlyOf df1c (mapDf2 df2c mappings) ks ↔
        rowKey df1c.cols ks df1c.rows[i] ∉
          composite_key_strings (mapDf2 df2c mappings) ks)) ∧
    (∀ j (hj : j < (mapDf2 df2c mappings).rows.length),
      ((j, (mapDf2 df2c mappings).rows[j]) ∈ rightOnlyOf df1c (mapDf2 df2c mappings) ks ↔
        rowKey (mapDf2 df2c mappings).cols ks (mapDf2 df2c mappings).rows[j] ∉
          composite_key_strings df1c ks)) := by
  refine ⟨?_, matchedPairsOf_key_count df1c (mapDf2 df2c mappings) ks, ?_, ?_⟩
  · intro i j hi hj
    constructor
    · intro hmem
      rcases mem_matchedPairsOf.mp hmem with ⟨hi', hj', _, hb, _, heq⟩
      rw [heq, hb]
    · intro heq
      exact mem_matchedPairsOf.mpr ⟨hi, hj, rfl, rfl, rfl, heq⟩
  · intro i hi
    rw [leftOnlyOf_eq]
    constructor
    · intro hmem
      rcases List.mem_filter.mp hmem with ⟨_, hpred⟩
      exact not_contains_iff.mp hpred
    · intro hnot
      apply List.mem_filter.mpr
      refine ⟨List.mem_enum_iff_getElem?.mpr (List.getElem?_eq_getElem hi), ?_⟩
      exact not_contains_iff.mpr hnot
  · intro j hj
    rw [rightOnlyOf_eq]
    constructor
    · intro hmem
      rcases List.mem_filter.mp hmem with ⟨_, hpred⟩
      exact not_contains_iff.mp hpred
    · intro hnot
      apply List.mem_filter.mpr
      refine ⟨List.mem_enum_iff_getElem?.mpr (List.getElem?_eq_getElem hj), ?_⟩
      exact not_contains_iff.mpr hnot

/-- Witness for C2 on a duplicated key: A has one row with key "1", the
shadow of B has two rows with key "1", so the pair count for key "1" is
1 times 2 and nothing is left_only or right_only. -/
theorem C2_outer_equijoin_witness :
    ((0 : Nat) < (⟨["k"], [[("k", Value.str "1")]]⟩ : DataFrame).rows.length ∧
      (0 : Nat) < (mapDf2 ⟨["k2"], [[("k2", Value.str "1")], [("k2", Value.str "1")]]⟩
        [("k", "k2")]).rows.length) ∧
    (((matchedPairsOf (⟨["k"], [[("k", Value.str "1")]]⟩ : DataFrame)
        (mapDf2 ⟨["k2"], [[("k2", Value.str "1")], [("k2", Value.str "1")]]⟩
          [("k", "k2")]) ["k"]).filter fun p => p.key = "1").length =
      countKey (composite_key_strings (⟨["k"], [[("k", Value.str "1")]]⟩ : DataFrame)
          ["k"]) "1" *
        countKey (composite_key_strings
          (mapDf2 ⟨["k2"], [[("k2", Value.str "1")], [("k2", Value.str "1")]]⟩
            [("k", "k2")]) ["k"]) "1") ∧
    (((0 : Nat), ([("k", Value.str "1")] : Row)) ∈
        leftOnlyOf (⟨["k"], [[("k", Value.str "1")]]⟩ : DataFrame)
          (mapDf2 ⟨["k2"], [[("k2", Value.str "1")], [("k2", Value.str "1")]]⟩
            [("k", "k2")]) ["k"] ↔
      rowKey ["k"] ["k"] [("k", Value.str "1")] ∉
        composite_key_strings
          (mapDf2 ⟨["k2"], [[("k2", Value.str "1")], [("k2", Value.str "1")]]⟩
            [("k", "k2")]) ["k"]) :=
  ⟨⟨by decide, by decide⟩,
   (C2_outer_equijoin ⟨["k"], [[("k", Value.str "1")]]⟩
      ⟨["k2"], [[("k2", Value.str "1")], [("k2", Value.str "1")]]⟩
      [("k", "k2")] ["k"]).2.1 "1",
   (C2_outer_equijoin ⟨["k"], [[("k", Value.str "1")]]⟩
      ⟨["k2"], [[("k2", Value.str "1")], [("k2", Value.str "1")]]⟩
      [("k", "k2")] ["k"]).2.2.1 0 (by decide)⟩

theorem enumFrom_filter_map_snd {α : Type _} (pred : α → Bool) :
    ∀ (n : Nat) (l : List α),
      ((List.enumFrom n l).filter fun q => pred q.2).map Prod.snd = l.filter pred
  | _, [] => rfl
  | n, a :: l => by
    by_cases h : pred a <;>
      simp [List.enumFrom, List.filter_cons, h, enumFrom_filter_map_snd pred (n + 1) l]

theorem getD_of_mem_enum {α : Type _} {l : List α} {p : Nat × α} (d : α)
    (hp : p ∈ l.enum) : l.getD p.1 d = p.2 := by
  have h : l[p.1]? = some p.2 := List.mem_enum_iff_getElem?.mp hp
  rw [List.getD_eq_getElem?_getD, h]
  rfl

theorem enum_filter_map_getD (pred : Row → Bool) (l : List Row) :
    ((l.enum.filter fun q => pred q.2).map fun p => l.getD p.1 []) = l.filter pred := by
  rw [List.map_congr_left (fun p hp =>
    getD_of_mem_enum [] (List.mem_filter.mp hp).1)]
  exact enumFrom_filter_map_snd pred 0 l

theorem not_contains_eq_decide (l : List String) (a : String) :
    (!l.contains a) = decide (a ∉ l) := by
  by_cases h : a ∈ l
  · have ht : l.contains a = true := List.elem_iff.mpr h
    rw [ht]
    simp [h]
  · rw [contains_eq_false_of_not_mem h]
    simp [h]

/-- C8 counterexample: in an aggregation run, utils.py lines 69-78 read
the only_in rows from the original df1 at the positional indices of the
unmatched aggregated rows.  The run stays inside pandas-defined
behavior: both aggregation dictionaries are non-empty ({u: sum} for
df1 via the entry on the present column u, {w: sum} for df2 via the
mapped entry v -> w; the v -> w mapping itself is dropped after
aggregation since v is no df1 column, so only the key column survives
to matching).  Two source rows (g = "1") have a composite key with no
counterpart in the shadow (whose key list is exactly ["2"]), yet
only_in_A holds exactly one row — not one output row per unmatched
source row as claimed for every run. -/
theorem C8_only_in_rows_counterexample :
    agg_dict_df1 (⟨["g", "u"], [[("g", Value.str "1"), ("u", Value.str "10")],
        [("g", Value.str "1"), ("u", Value.str "20")],
        [("g", Value.str "2"), ("u", Value.str "30")]]⟩ : DataFrame)
      ["g"] [("u", "sum"), ("v", "sum")] = [("u", "sum")] ∧
    agg_dict_df2 (⟨["g2", "w"], [[("g2", Value.str "2"), ("w", Value.str "5")]]⟩ :
        DataFrame)
      [("g", "g2"), ("v", "w")] ["g2"] [("u", "sum"), ("v", "sum")] = [("w", "sum")] ∧
    perform_reconciliation
        ⟨["g", "u"], [[("g", Value.str "1"), ("u", Value.str "10")],
          [("g", Value.str "1"), ("u", Value.str "20")],
          [("g", Value.str "2"), ("u", Value.str "30")]]⟩
        ⟨["g2", "w"], [[("g2", Value.str "2"), ("w", Value.str "5")]]⟩
        [("g", "g2"), ("v", "w")] [("g", "g2")] true ["g"] ["g2"]
        [("u", "sum"), ("v", "sum")] =
      .ok {
        stats := { matched := 1, mismatched := 0, only_in_file1 := 1, only_in_file2 := 0 },
        mismatched_data := [],
        only_in_file1_data := [[("g", Value.str "1"), ("u", Value.str "10")]],
        only_in_file2_data := [] } ∧
    composite_key_strings
      (mapDf2 (aggregate_dataframes
          ⟨["g", "u"], [[("g", Value.str "1"), ("u", Value.str "10")],
            [("g", Value.str "1"), ("u", Value.str "20")],
            [("g", Value.str "2"), ("u", Value.str "30")]]⟩
          ⟨["g2", "w"], [[("g2", Value.str "2"), ("w", Value.str "5")]]⟩
          [("g", "g2"), ("v", "w")] [("g", "g2")] ["g"] ["g2"]
          [("u", "sum"), ("v", "sum")]).2.1
        (aggregate_dataframes
          ⟨["g", "u"], [[("g", Value.str "1"), ("u", Value.str "10")],
            [("g", Value.str "1"), ("u", Value.str "20")],
            [("g", Value.str "2"), ("u", Value.str "30")]]⟩
          ⟨["g2", "w"], [[("g2", Value.str "2"), ("w", Value.str "5")]]⟩
          [("g", "g2"), ("v", "w")] [("g", "g2")] ["g"] ["g2"]
          [("u", "sum"), ("v", "sum")]).2.2.1) ["g"] = ["2"] ∧
    ((⟨["g", "u"], [[("g", Value.str "1"), ("u", Value.str "10")],
        [("g", Value.str "1"), ("u", Value.str "20")],
        [("g", Value.str "2"), ("u", Value.str "30")]]⟩ : DataFrame).rows.filter fun row =>
      !(["2"].contains (rowKey ["g", "u"] ["g"] row))).length = 2 := by
  refine ⟨rfl, rfl, rfl, rfl, ?_⟩
  decide

/-- C8 amended: for runs without aggregation, only_in_A consists of
exactly the original, un-renamed df1 rows whose composite key has no
counterpart among the shadow keys (one output row per such source row),
and only_in_B of exactly the original df2 rows whose shadow image's
composite key has no counterpart among df1's keys.  In aggregation runs
the indices of unmatched aggregated rows are applied to the original
frames, so this correspondence does not hold there. -/
theorem C8_only_in_rows_amended (df1 df2 : DataFrame)
    (cm kc : List (String × String)) (h : kc ≠ []) :
    ∃ r, perform_reconciliation df1 df2 cm kc false [] [] [] = .ok r ∧
      r.only_in_file1_data =
        (df1.rows.filter fun row =>
          decide (rowKey df1.cols (kc.map fun p => p.1) row ∉
            composite_key_strings (mapDf2 df2 cm) (kc.map fun p => p.1))) ∧
      r.only_in_file2_data =
        (df2.rows.filter fun row =>
          decide (rowKey (mapDf2 df2 cm).cols (kc.map fun p => p.1)
              (mapRow cm df2.cols row) ∉
            composite_key_strings df1 (kc.map fun p => p.1))) ∧
      (∀ row ∈ r.only_in_file1_data, row ∈ df1.rows) ∧
      (∀ row ∈ r.only_in_file2_data, row ∈ df2.rows) := by
  rw [perform_reconciliation_def]
  have heff : effectiveInputs df1 df2 cm kc false [] [] [] = (df1, df2, cm, kc) := rfl
  rw [heff, reconcile_core_ok df1 df2 df1 df2 cm kc h]
  refine ⟨_, rfl, ?_, ?_, ?_, ?_⟩
  · show (leftOnlyOf df1 (mapDf2 df2 cm) (kc.map fun p => p.1)).map
      (fun p => df1.rows.getD p.1 []) = _
    rw [leftOnlyOf_eq]
    rw [enum_filter_map_getD (fun row =>
      !(composite_key_strings (mapDf2 df2 cm) (kc.map fun p => p.1)).contains
        (rowKey df1.cols (kc.map fun p => p.1) row)) df1.rows]
    exact List.filter_congr fun row _ => not_contains_eq_decide _ _
  · show (rightOnlyOf df1 (mapDf2 df2 cm) (kc.map fun p => p.1)).map
      (fun p => df2.rows.getD p.1 []) = _
    rw [rightOnlyOf_eq]
    have hrows : (mapDf2 df2 cm).rows = df2.rows.map (mapRow cm df2.cols) := rfl
    rw [hrows, List.enum_map, List.filter_map, List.map_map]
    have hcomp : ((fun p : Nat × Row => df2.rows.getD p.1 []) ∘
        Prod.map id (mapRow cm df2.cols)) = fun p : Nat × Row => df2.rows.getD p.1 [] := by
      funext p
      cases p
      rfl
    have hpred : ((fun q : Nat × Row =>
        !(composite_key_strings df1 (kc.map fun p => p.1)).contains
          (rowKey (mapDf2 df2 cm).cols (kc.map fun p => p.1) q.2)) ∘
        Prod.map id (mapRow cm df2.cols)) = fun q : Nat × Row =>
          !(composite_key_strings df1 (kc.map fun p => p.1)).contains
            (rowKey (mapDf2 df2 cm).cols (kc.map fun p => p.1)
              (mapRow cm df2.cols q.2)) := by
      funext q
      cases q
      rfl
    rw [hcomp, hpred]
    rw [enum_filter_map_getD (fun row =>
      !(composite_key_strings df1 (kc.map fun p => p.1)).contains
        (rowKey (mapDf2 df2 cm).cols (kc.map fun p => p.1)
          (mapRow cm df2.cols row))) df2.rows]
    exact List.filter_congr fun row _ => not_contains_eq_decide _ _
  · intro row hrow
    rcases List.mem_map.mp hrow with ⟨p, hp, hpe⟩
    rw [leftOnlyOf_eq] at hp
    have hpenum := (List.mem_filter.mp hp).1
    rcases List.getElem?_eq_some.mp (List.mem_enum_iff_getElem?.mp hpenum) with ⟨hlt, hval⟩
    rw [← hpe, List.getD_eq_getElem _ _ hlt]
    exact List.getElem_mem hlt
  · intro row hrow
    rcases List.mem_map.mp hrow with ⟨p, hp, hpe⟩
    rw [rightOnlyOf_eq] at hp
    have hpenum := (List.mem_filter.mp hp).1
    have hlt : p.1 < (mapDf2 df2 cm).rows.length :=
      (List.getElem?_eq_some.mp (List.mem_enum_iff_getElem?.mp hpenum)).1
    have hlt2 : p.1 < df2.rows.length := by
      simpa [mapDf2] using hlt
    rw [← hpe, List.getD_eq_getElem _ _ hlt2]
    exact List.getElem_mem hlt2

theorem C8_only_in_rows_amended_witness :
    ([("id", "cid")] : List (String × String)) ≠ [] ∧
    ∃ r, perform_reconciliation
        (⟨["id"], [[("id", Value.str "1")], [("id", Value.str "2")]]⟩ : DataFrame)
        (⟨["cid"], [[("cid", Value.str "2")], [("cid", Value.str "3")]]⟩ : DataFrame)
        [("id", "cid")] [("id", "cid")] false [] [] [] = .ok r ∧
      r.only_in_file1_data =
        ((⟨["id"], [[("id", Value.str "1")], [("id", Value.str "2")]]⟩ :
            DataFrame).rows.filter fun row =>
          decide (rowKey ["id"] ([("id", "cid")].map fun p => p.1) row ∉
            composite_key_strings
              (mapDf2 ⟨["cid"], [[("cid", Value.str "2")], [("cid", Value.str "3")]]⟩
                [("id", "cid")]) ([("id", "cid")].map fun p => p.1))) ∧
      r.only_in_file2_data =
        ((⟨["cid"], [[("cid", Value.str "2")], [("cid", Value.str "3")]]⟩ :
            DataFrame).rows.filter fun row =>
          decide (rowKey
              (mapDf2 ⟨["cid"], [[("cid", Value.str "2")], [("cid", Value.str "3")]]⟩
                [("id", "cid")]).cols ([("id", "cid")].map fun p => p.1)
              (mapRow [("id", "cid")] ["cid"] row) ∉
            composite_key_strings
              (⟨["id"], [[("id", Value.str "1")], [("id", Value.str "2")]]⟩ : DataFrame)
              ([("id", "cid")].map fun p => p.1))) ∧
      (∀ row ∈ r.only_in_file1_data,
        row ∈ (⟨["id"], [[("id", Value.str "1")], [("id", Value.str "2")]]⟩ :
          DataFrame).rows) ∧
      (∀ row ∈ r.only_in_file2_data,
        row ∈ (⟨["cid"], [[("cid", Value.str "2")], [("cid", Value.str "3")]]⟩ :
          DataFrame).rows) :=
  ⟨by decide,
    C8_only_in_rows_amended
      ⟨["id"], [[("id", Value.str "1")], [("id", Value.str "2")]]⟩
      ⟨["cid"], [[("cid", Value.str "2")], [("cid", Value.str "3")]]⟩
      [("id", "cid")] [("id", "cid")] (by decide)⟩

/-- The number of distinct group-column value tuples occurring in a
dataset, nulls included — the count the claim states for the aggregated
row count. -/
def distinctTuples (df : DataFrame) (gcols : List String) : Nat :=
  ((df.rows.map fun r => gcols.map fun c => r.get c).dedup).length

/-- The number of distinct group-column value tuples among the rows
with no null in any group column — what pandas groupby (dropna=True,
its default) actually groups. -/
def distinctNonNullTuples (df : DataFrame) (gcols : List String) : Nat :=
  (((df.rows.filter fun r => gcols.all fun c => decide (r.get c ≠ Value.null)).map
    fun r => gcols.map fun c => r.get c).dedup).length

/-- C7 counterexample: an aggregation run in the region where pandas
defines the operation (group columns present, and both aggregation
dictionaries non-empty — here {v: sum} for df1 and {w: sum} for df2).
The single df1 row has a null grouping value, so it carries one
distinct value tuple ([null]); yet the aggregated df1 has zero rows:
pandas groupby drops null group keys (dropna=True by default), so the
claimed equality fails on datasets with nulls in the grouping
columns. -/
theorem C7_aggregation_row_count_counterexample :
    agg_dict_df1 (⟨["g", "v"], [[("g", Value.null), ("v", Value.str "x")]]⟩ : DataFrame)
      ["g"] [("v", "sum")] = [("v", "sum")] ∧
    agg_dict_df2 (⟨["h", "w"], [[("h", Value.str "1"), ("w", Value.str "y")]]⟩ : DataFrame)
      [("g", "h"), ("v", "w")] ["h"] [("v", "sum")] = [("w", "sum")] ∧
    (aggregate_dataframes
        (⟨["g", "v"], [[("g", Value.null), ("v", Value.str "x")]]⟩ : DataFrame)
        (⟨["h", "w"], [[("h", Value.str "1"), ("w", Value.str "y")]]⟩ : DataFrame)
        [("g", "h"), ("v", "w")] [("g", "h")] ["g"] ["h"]
        [("v", "sum")]).1.rows.length = 0 ∧
    distinctTuples (⟨["g", "v"], [[("g", Value.null), ("v", Value.str "x")]]⟩ : DataFrame)
      ["g"] = 1 ∧
    (0 : Nat) ≠ 1 := by
  refine ⟨rfl, rfl, rfl, rfl, by decide⟩

/-- C7 amended: with valid group columns, the aggregated output of each
dataset has one row per distinct group-column value tuple among the
rows with no null in any grouping column; rows with a null group value
are dropped (pandas groupby dropna default).  The hypotheses restrict
to inputs on which pandas defines the operation: group columns present
in the frames (a missing column raises KeyError) and a non-empty
aggregation dictionary on each side (pandas .agg with an empty dict
raises ValueError, an error path groupbyAgg does not model). -/
theorem C7_aggregation_row_count_amended (df1 df2 : DataFrame)
    (cm kc : List (String × String)) (a1 a2 : List String)
    (af : List (String × String)) (h1 : ∀ c ∈ a1, c ∈ df1.cols)
    (h2 : ∀ c ∈ a2, c ∈ df2.cols)
    (hd1 : agg_dict_df1 df1 a1 af ≠ [])
    (hd2 : agg_dict_df2 df2 cm a2 af ≠ []) :
    (aggregate_dataframes df1 df2 cm kc a1 a2 af).1.rows.length =
      distinctNonNullTuples df1 a1 ∧
    (aggregate_dataframes df1 df2 cm kc a1 a2 af).2.1.rows.length =
      distinctNonNullTuples df2 a2 := by
  constructor
  · show (groupbyAgg df1 a1 _).rows.length = _
    rw [groupbyAgg, distinctNonNullTuples]
    simp
  · show (groupbyAgg df2 a2 _).rows.length = _
    rw [groupbyAgg, distinctNonNullTuples]
    simp

theorem C7_aggregation_row_count_amended_witness :
    (∀ c ∈ ["g"], c ∈ (⟨["g", "v"],
      [[("g", Value.str "1"), ("v", Value.str "x")],
        [("g", Value.str "1"), ("v", Value.str "y")],
        [("g", Value.null), ("v", Value.str "z")]]⟩ : DataFrame).cols) ∧
    (∀ c ∈ ["h"], c ∈ (⟨["h", "w"],
      [[("h", Value.str "1"), ("w", Value.str "q")]]⟩ : DataFrame).cols) ∧
    agg_dict_df1 (⟨["g", "v"],
      [[("g", Value.str "1"), ("v", Value.str "x")],
        [("g", Value.str "1"), ("v", Value.str "y")],
        [("g", Value.null), ("v", Value.str "z")]]⟩ : DataFrame)
      ["g"] [("v", "sum")] ≠ [] ∧
    agg_dict_df2 (⟨["h", "w"],
      [[("h", Value.str "1"), ("w", Value.str "q")]]⟩ : DataFrame)
      [("g", "h"), ("v", "w")] ["h"] [("v", "sum")] ≠ [] ∧
    (aggregate_dataframes
        (⟨["g", "v"],
          [[("g", Value.str "1"), ("v", Value.str "x")],
            [("g", Value.str "1"), ("v", Value.str "y")],
            [("g", Value.null), ("v", Value.str "z")]]⟩ : DataFrame)
        (⟨["h", "w"], [[("h", Value.str "1"), ("w", Value.str "q")]]⟩ : DataFrame)
        [("g", "h"), ("v", "w")] [("g", "h")] ["g"] ["h"]
        [("v", "sum")]).1.rows.length =
      distinctNonNullTuples
        (⟨["g", "v"],
          [[("g", Value.str "1"), ("v", Value.str "x")],
            [("g", Value.str "1"), ("v", Value.str "y")],
            [("g", Value.null), ("v", Value.str "z")]]⟩ : DataFrame) ["g"] ∧
    (aggregate_dataframes
        (⟨["g", "v"],
          [[("g", Value.str "1"), ("v", Value.str "x")],
            [("g", Value.str "1"), ("v", Value.str "y")],
            [("g", Value.null), ("v", Value.str "z")]]⟩ : DataFrame)
        (⟨["h", "w"], [[("h", Value.str "1"), ("w", Value.str "q")]]⟩ : DataFrame)
        [("g", "h"), ("v", "w")] [("g", "h")] ["g"] ["h"]
        [("v", "sum")]).2.1.rows.length =
      distinctNonNullTuples
        (⟨["h", "w"], [[("h", Value.str "1"), ("w", Value.str "q")]]⟩ : DataFrame)
        ["h"] :=
  ⟨by decide, by decide, by decide, by decide,
    (C7_aggregation_row_count_amended
      ⟨["g", "v"],
        [[("g", Value.str "1"), ("v", Value.str "x")],
          [("g", Value.str "1"), ("v", Value.str "y")],
          [("g", Value.null), ("v", Value.str "z")]]⟩
      ⟨["h", "w"], [[("h", Value.str "1"), ("w", Value.str "q")]]⟩
      [("g", "h"), ("v", "w")] [("g", "h")] ["g"] ["h"] [("v", "sum")]
      (by decide) (by decide) (by decide) (by decide)).1,
    (C7_aggregation_row_count_amended
      ⟨["g", "v"],
        [[("g", Value.str "1"), ("v", Value.str "x")],
          [("g", Value.str "1"), ("v", Value.str "y")],
          [("g", Value.null), ("v", Value.str "z")]]⟩
      ⟨["h", "w"], [[("h", Value.str "1"), ("w", Value.str "q")]]⟩
      [("g", "h"), ("v", "w")] [("g", "h")] ["g"] ["h"] [("v", "sum")]
      (by decide) (by decide) (by decide) (by decide)).2⟩

/-- C6 (code bug): identify_mismatches is documented ("Skip key columns
and internal columns", utils.py line 193) and specified to compare only
non-key mapped columns, but the code only skips names starting with an
underscore: key columns are compared too.  On a two-column key whose
composite keys collide ("x|y" + "z" vs "x" + "y|z"), the matched pair
is emitted as a mismatch with diff annotations on both key columns. -/
theorem C6_key_columns_compared :
    perform_reconciliation
        ⟨["a", "b"], [[("a", Value.str "x|y"), ("b", Value.str "z")]]⟩
        ⟨["a2", "b2"], [[("a2", Value.str "x"), ("b2", Value.str "y|z")]]⟩
        [("a", "a2"), ("b", "b2")] [("a", "a2"), ("b", "b2")] =
      .ok {
        stats := { matched := 0, mismatched := 1, only_in_file1 := 0, only_in_file2 := 0 },
        mismatched_data := [⟨"x|y|z",
          [("a", Value.str "x|y", Value.str "x", some "File1: x|y | File2: x"),
            ("b", Value.str "z", Value.str "y|z", some "File1: z | File2: y|z")]⟩],
        only_in_file1_data := [],
        only_in_file2_data := [] } ∧
      "a" ∈ ([("a", "a2"), ("b", "b2")].map fun p => p.1) ∧
      "a" ∈ comparedCols ([("a", "a2"), ("b", "b2")].map fun p => p.1)
        ["a", "b"] (mapDf2 ⟨["a2", "b2"], [[("a2", Value.str "x"), ("b2", Value.str "y|z")]]⟩
          [("a", "a2"), ("b", "b2")]).cols := by
  exact ⟨rfl, by decide, by decide⟩

/-! ### Row-level classification of a run (for the partition claims) -/

/-- Row i of the (possibly aggregated) df1 participates in a joined
pair with zero differing compared columns. -/
def rowAMatchedB (d1 d2m : DataFrame) (ks cc : List String) (i : Nat) : Bool :=
  (matchedPairsOf d1 d2m ks).any fun p => p.i == i && !pairHasMismatch cc p

/-- Row i of df1 participates in a joined pair with at least one
differing compared column (an emitted mismatch row). -/
def rowAMismatchedB (d1 d2m : DataFrame) (ks cc : List String) (i : Nat) : Bool :=
  (matchedPairsOf d1 d2m ks).any fun p => p.i == i && pairHasMismatch cc p

/-- Row i of df1 is classified only-in-A. -/
def rowAOnlyB (d1 d2m : DataFrame) (ks : List String) (i : Nat) : Bool :=
  (leftOnlyOf d1 d2m ks).any fun p => p.1 == i

/-- Shadow row j (and so the original df2 row j) participates in a
joined pair with zero differing compared columns. -/
def rowBMatchedB (d1 d2m : DataFrame) (ks cc : List String) (j : Nat) : Bool :=
  (matchedPairsOf d1 d2m ks).any fun p => p.j == j && !pairHasMismatch cc p

/-- Shadow row j participates in a joined pair with at least one
differing compared column. -/
def rowBMismatchedB (d1 d2m : DataFrame) (ks cc : List String) (j : Nat) : Bool :=
  (matchedPairsOf d1 d2m ks).any fun p => p.j == j && pairHasMismatch cc p

/-- Shadow row j (and so the original df2 row j) is classified
only-in-B. -/
def rowBOnlyB (d1 d2m : DataFrame) (ks : List String) (j : Nat) : Bool :=
  (rightOnlyOf d1 d2m ks).any fun p => p.1 == j

theorem mem_composite_key_strings {df : DataFrame} {ks : List String} {k : String} :
    k ∈ composite_key_strings df ks ↔
      ∃ i, ∃ hi : i < df.rows.length, k = rowKey df.cols ks df.rows[i] := by
  rw [composite_key_strings_eq_map]
  constructor
  · intro h
    rcases List.mem_map.mp h with ⟨r, hr, hre⟩
    rcases List.mem_iff_getElem.mp hr with ⟨i, hi, hie⟩
    exact ⟨i, hi, by rw [← hre, hie]⟩
  · rintro ⟨i, hi, hke⟩
    subst hke
    exact List.mem_map.mpr ⟨_, List.getElem_mem hi, rfl⟩

theorem rowAOnlyB_iff {d1 d2m : DataFrame} {ks : List String} {i : Nat}
    (hi : i < d1.rows.length) :
    rowAOnlyB d1 d2m ks i = true ↔
      rowKey d1.cols ks d1.rows[i] ∉ composite_key_strings d2m ks := by
  rw [rowAOnlyB, List.any_eq_true]
  constructor
  · rintro ⟨p, hp, hpi⟩
    obtain ⟨pi, pr⟩ := p
    have hip : pi = i := by simpa using hpi
    subst hip
    rw [leftOnlyOf_eq] at hp
    rcases List.mem_filter.mp hp with ⟨hpe, hpred⟩
    rcases List.getElem?_eq_some.mp (List.mem_enum_iff_getElem?.mp hpe) with ⟨hlt, hval⟩
    rw [← hval] at hpred
    exact not_contains_iff.mp hpred
  · intro hnot
    refine ⟨(i, d1.rows[i]), ?_, by simp⟩
    rw [leftOnlyOf_eq]
    exact List.mem_filter.mpr
      ⟨List.mem_enum_iff_getElem?.mpr (List.getElem?_eq_getElem hi),
        not_contains_iff.mpr hnot⟩

theorem rowBOnlyB_iff {d1 d2m : DataFrame} {ks : List String} {j : Nat}
    (hj : j < d2m.rows.length) :
    rowBOnlyB d1 d2m ks j = true ↔
      rowKey d2m.cols ks d2m.rows[j] ∉ composite_key_strings d1 ks := by
  rw [rowBOnlyB, List.any_eq_true]
  constructor
  · rintro ⟨p, hp, hpj⟩
    obtain ⟨pj, pr⟩ := p
    have hjp : pj = j := by simpa using hpj
    subst hjp
    rw [rightOnlyOf_eq] at hp
    rcases List.mem_filter.mp hp with ⟨hpe, hpred⟩
    rcases List.getElem?_eq_some.mp (List.mem_enum_iff_getElem?.mp hpe) with ⟨hlt, hval⟩
    rw [← hval] at hpred
    exact not_contains_iff.mp hpred
  · intro hnot
    refine ⟨(j, d2m.rows[j]), ?_, by simp⟩
    rw [rightOnlyOf_eq]
    exact List.mem_filter.mpr
      ⟨List.mem_enum_iff_getElem?.mpr (List.getElem?_eq_getElem hj),
        not_contains_iff.mpr hnot⟩

theorem pairs_index_exists_A {d1 d2m : DataFrame} {ks : List String} {i : Nat}
    (hi : i < d1.rows.length) :
    ((matchedPairsOf d1 d2m ks).any fun p => p.i == i) = true ↔
      rowKey d1.cols ks d1.rows[i] ∈ composite_key_strings d2m ks := by
  rw [List.any_eq_true]
  constructor
  · rintro ⟨p, hp, hpi⟩
    obtain ⟨pi, pj, pa, pb, pk⟩ := p
    rcases mem_matchedPairsOf.mp hp with ⟨hi', hj', ha, hb, hk, heq⟩
    have hip : pi = i := by simpa using hpi
    subst hip
    rw [mem_composite_key_strings]
    refine ⟨pj, hj', ?_⟩
    rw [← hb, ← ha]
    exact heq
  · intro hmem
    rcases mem_composite_key_strings.mp hmem with ⟨j, hj, hke⟩
    exact ⟨⟨i, j, d1.rows[i], d2m.rows[j], rowKey d1.cols ks d1.rows[i]⟩,
      mem_matchedPairsOf.mpr ⟨hi, hj, rfl, rfl, rfl, hke⟩, by simp⟩

theorem pairs_index_exists_B {d1 d2m : DataFrame} {ks : List String} {j : Nat}
    (hj : j < d2m.rows.length) :
    ((matchedPairsOf d1 d2m ks).any fun p => p.j == j) = true ↔
      rowKey d2m.cols ks d2m.rows[j] ∈ composite_key_strings d1 ks := by
  rw [List.any_eq_true]
  constructor
  · rintro ⟨p, hp, hpj⟩
    obtain ⟨pi, pj', pa, pb, pk⟩ := p
    rcases mem_matchedPairsOf.mp hp with ⟨hi', hj', ha, hb, hk, heq⟩
    have hjp : pj' = j := by simpa using hpj
    subst hjp
    rw [mem_composite_key_strings]
    refine ⟨pi, hi', ?_⟩
    rw [← hb, ← ha]
    exact heq.symm
  · intro hmem
    rcases mem_composite_key_strings.mp hmem with ⟨i, hi, hke⟩
    exact ⟨⟨i, j, d1.rows[i], d2m.rows[j], rowKey d1.cols ks d1.rows[i]⟩,
      mem_matchedPairsOf.mpr ⟨hi, hj, rfl, rfl, rfl, hke.symm⟩, by simp⟩

theorem any_and_split {α : Type _} (l : List α) (q h : α → Bool) :
    ((l.any fun x => q x && !h x) = true ∨ (l.any fun x => q x && h x) = true) ↔
      (l.any q) = true := by
  simp only [List.any_eq_true, Bool.and_eq_true, Bool.not_eq_true']
  constructor
  · rintro (⟨p, hp, hq, _⟩ | ⟨p, hp, hq, _⟩) <;> exact ⟨p, hp, hq⟩
  · rintro ⟨p, hp, hq⟩
    by_cases hh : h p = true
    · exact Or.inr ⟨p, hp, hq, hh⟩
    · exact Or.inl ⟨p, hp, hq, by simpa using hh⟩

theorem length_filter_not {α : Type _} (l : List α) (p : α → Bool) :
    (l.filter fun a => !p a).length = l.length - (l.filter p).length := by
  have h := List.length_eq_length_filter_add (l := l) p
  omega

theorem length_enum_filter (pred : Row → Bool) (l : List Row) :
    (l.enum.filter fun q => pred q.2).length = (l.filter pred).length := by
  have h := congrArg List.length (enumFrom_filter_map_snd pred 0 l)
  simpa using h

theorem coreResult_stats_matched (df1o df2o d1 d2c : DataFrame)
    (mappings keyCols : List (String × String)) :
    (coreResult df1o df2o d1 d2c mappings keyCols).stats.matched =
      (matchedPairsOf d1 (mapDf2 d2c mappings) (keyCols.map fun p => p.1)).length -
        (identify_mismatches
          (matchedPairsOf d1 (mapDf2 d2c mappings) (keyCols.map fun p => p.1))
          (mappings.map fun p => p.1) d1.cols (mapDf2 d2c mappings).cols).length := rfl

theorem coreResult_stats_mismatched (df1o df2o d1 d2c : DataFrame)
    (mappings keyCols : List (String × String)) :
    (coreResult df1o df2o d1 d2c mappings keyCols).stats.mismatched =
      (identify_mismatches
        (matchedPairsOf d1 (mapDf2 d2c mappings) (keyCols.map fun p => p.1))
        (mappings.map fun p => p.1) d1.cols (mapDf2 d2c mappings).cols).length := rfl

theorem coreResult_stats_only1 (df1o df2o d1 d2c : DataFrame)
    (mappings keyCols : List (String × String)) :
    (coreResult df1o df2o d1 d2c mappings keyCols).stats.only_in_file1 =
      (leftOnlyOf d1 (mapDf2 d2c mappings) (keyCols.map fun p => p.1)).length := rfl

theorem coreResult_stats_only2 (df1o df2o d1 d2c : DataFrame)
    (mappings keyCols : List (String × String)) :
    (coreResult df1o df2o d1 d2c mappings keyCols).stats.only_in_file2 =
      (rightOnlyOf d1 (mapDf2 d2c mappings) (keyCols.map fun p => p.1)).length := rfl

/-- C1 counterexample: with a duplicated key on the B side, row 0 of A
joins into one pair with zero differences and one pair with a
difference, so it is in the matched category and in the mismatched
category at once (the run reports matched = 1 and mismatched = 1):
rows are not classified into exactly one of the four categories. -/
theorem C1_partition_counterexample :
    perform_reconciliation
        ⟨["k", "v"], [[("k", Value.str "1"), ("v", Value.str "1")]]⟩
        ⟨["k2", "v2"], [[("k2", Value.str "1"), ("v2", Value.str "1")],
          [("k2", Value.str "1"), ("v2", Value.str "2")]]⟩
        [("k", "k2"), ("v", "v2")] [("k", "k2")] =
      .ok {
        stats := { matched := 1, mismatched := 1, only_in_file1 := 0, only_in_file2 := 0 },
        mismatched_data := [⟨"1",
          [("k", Value.str "1", Value.str "1", none),
            ("v", Value.str "1", Value.str "2", some "File1: 1 | File2: 2")]⟩],
        only_in_file1_data := [],
        only_in_file2_data := [] } ∧
    rowAMatchedB ⟨["k", "v"], [[("k", Value.str "1"), ("v", Value.str "1")]]⟩
      (mapDf2 ⟨["k2", "v2"], [[("k2", Value.str "1"), ("v2", Value.str "1")],
        [("k2", Value.str "1"), ("v2", Value.str "2")]]⟩ [("k", "k2"), ("v", "v2")])
      ["k"] (comparedCols ["k", "v"] ["k", "v"] ["k", "v"]) 0 = true ∧
    rowAMismatchedB ⟨["k", "v"], [[("k", Value.str "1"), ("v", Value.str "1")]]⟩
      (mapDf2 ⟨["k2", "v2"], [[("k2", Value.str "1"), ("v2", Value.str "1")],
        [("k2", Value.str "1"), ("v2", Value.str "2")]]⟩ [("k", "k2"), ("v", "v2")])
      ["k"] (comparedCols ["k", "v"] ["k", "v"] ["k", "v"]) 0 = true := by
  exact ⟨rfl, by decide, by decide⟩

set_option maxHeartbeats 1000000 in
/-- C1 amended: every run routes through reconcile_core on the
effective (possibly aggregated) inputs, and for every core run with a
non-empty key set: matched counts exactly the joined pairs with zero
differing compared columns and mismatched exactly the rest, so
matched + mismatched equals the number of key-equal (A-row, B-row)
pairs of the outer join; the only_in counts are the rows of each side
whose key has no counterpart; and at row level only_in is exactly the
complement of being in some joined pair — every row falls in at least
one category, but a row may be in both the matched and the mismatched
category when key duplication produces Cartesian expansion (they are
exclusive exactly when the row joins into pairs of one kind only). -/
theorem C1_stats_partition :
    (∀ (df1 df2 : DataFrame) (cm kc : List (String × String)) (ua : Bool)
        (a1 a2 : List String) (af : List (String × String)),
      perform_reconciliation df1 df2 cm kc ua a1 a2 af =
        reconcile_core df1 df2
          (effectiveInputs df1 df2 cm kc ua a1 a2 af).1
          (effectiveInputs df1 df2 cm kc ua a1 a2 af).2.1
          (effectiveInputs df1 df2 cm kc ua a1 a2 af).2.2.1
          (effectiveInputs df1 df2 cm kc ua a1 a2 af).2.2.2) ∧
    (∀ (df1o df2o d1 d2c : DataFrame) (mappings keyCols : List (String × String)),
      keyCols ≠ [] →
      ∃ r, reconcile_core df1o df2o d1 d2c mappings keyCols = .ok r ∧
        r.stats.matched =
          ((matchedPairsOf d1 (mapDf2 d2c mappings) (keyCols.map fun p => p.1)).filter
            fun p => !pairHasMismatch (comparedCols (mappings.map fun p => p.1)
              d1.cols (mapDf2 d2c mappings).cols) p).length ∧
        r.stats.mismatched =
          ((matchedPairsOf d1 (mapDf2 d2c mappings) (keyCols.map fun p => p.1)).filter
            fun p => pairHasMismatch (comparedCols (mappings.map fun p => p.1)
              d1.cols (mapDf2 d2c mappings).cols) p).length ∧
        r.stats.matched + r.stats.mismatched =
          (matchedPairsOf d1 (mapDf2 d2c mappings) (keyCols.map fun p => p.1)).length ∧
        (matchedPairsOf d1 (mapDf2 d2c mappings) (keyCols.map fun p => p.1)).length =
          ((composite_key_strings d1 (keyCols.map fun p => p.1)).map fun k =>
            countKey (composite_key_strings (mapDf2 d2c mappings)
              (keyCols.map fun p => p.1)) k).sum ∧
        r.stats.only_in_file1 =
          (d1.rows.filter fun row =>
            !((composite_key_strings (mapDf2 d2c mappings)
                (keyCols.map fun p => p.1)).contains
              (rowKey d1.cols (keyCols.map fun p => p.1) row))).length ∧
        r.stats.only_in_file2 =
          ((mapDf2 d2c mappings).rows.filter fun row =>
            !((composite_key_strings d1 (keyCols.map fun p => p.1)).contains
              (rowKey (mapDf2 d2c mappings).cols (keyCols.map fun p => p.1) row))).length ∧
        (∀ i, i < d1.rows.length →
          (rowAOnlyB d1 (mapDf2 d2c mappings) (keyCols.map fun p => p.1) i = true ↔
            ¬(rowAMatchedB d1 (mapDf2 d2c mappings) (keyCols.map fun p => p.1)
                (comparedCols (mappings.map fun p => p.1) d1.cols
                  (mapDf2 d2c mappings).cols) i = true ∨
              rowAMismatchedB d1 (mapDf2 d2c mappings) (keyCols.map fun p => p.1)
                (comparedCols (mappings.map fun p => p.1) d1.cols
                  (mapDf2 d2c mappings).cols) i = true))) ∧
        (∀ j, j < (mapDf2 d2c mappings).rows.length →
          (rowBOnlyB d1 (mapDf2 d2c mappings) (keyCols.map fun p => p.1) j = true ↔
            ¬(rowBMatchedB d1 (mapDf2 d2c mappings) (keyCols.map fun p => p.1)
                (comparedCols (mappings.map fun p => p.1) d1.cols
                  (mapDf2 d2c mappings).cols) j = true ∨
              rowBMismatchedB d1 (mapDf2 d2c mappings) (keyCols.map fun p => p.1)
                (comparedCols (mappings.map fun p => p.1) d1.cols
                  (mapDf2 d2c mappings).cols) j = true)))) := by
  constructor
  · intro df1 df2 cm kc ua a1 a2 af
    exact perform_reconciliation_def df1 df2 cm kc ua a1 a2 af
  · intro df1o df2o d1 d2c mappings keyCols h
    rw [reconcile_core_ok df1o df2o d1 d2c mappings keyCols h]
    refine ⟨coreResult df1o df2o d1 d2c mappings keyCols, rfl,
      ?_, ?_, ?_, ?_, ?_, ?_, ?_, ?_⟩
    · rw [coreResult_stats_matched, identify_mismatches_length, ← length_filter_not]
    · rw [coreResult_stats_mismatched, identify_mismatches_length]
    · rw [coreResult_stats_matched, coreResult_stats_mismatched,
        identify_mismatches_length]
      have hle := List.length_filter_le
        (fun p => pairHasMismatch (comparedCols (mappings.map fun p => p.1)
          d1.cols (mapDf2 d2c mappings).cols) p)
        (matchedPairsOf d1 (mapDf2 d2c mappings) (keyCols.map fun p => p.1))
      omega
    · exact matchedPairsOf_length d1 (mapDf2 d2c mappings) (keyCols.map fun p => p.1)
    · rw [coreResult_stats_only1, leftOnlyOf_eq]
      exact length_enum_filter (fun row =>
        !((composite_key_strings (mapDf2 d2c mappings)
            (keyCols.map fun p => p.1)).contains
          (rowKey d1.cols (keyCols.map fun p => p.1) row))) d1.rows
    · rw [coreResult_stats_only2, rightOnlyOf_eq]
      exact length_enum_filter (fun row =>
        !((composite_key_strings d1 (keyCols.map fun p => p.1)).contains
          (rowKey (mapDf2 d2c mappings).cols (keyCols.map fun p => p.1) row)))
        (mapDf2 d2c mappings).rows
    · intro i hi
      rw [rowAOnlyB_iff hi, rowAMatchedB, rowAMismatchedB,
        any_and_split (matchedPairsOf d1 (mapDf2 d2c mappings) (keyCols.map fun p => p.1))
          (fun p => p.i == i)
          (pairHasMismatch (comparedCols (mappings.map fun p => p.1) d1.cols
            (mapDf2 d2c mappings).cols)),
        pairs_index_exists_A hi]
    · intro j hj
      rw [rowBOnlyB_iff hj, rowBMatchedB, rowBMismatchedB,
        any_and_split (matchedPairsOf d1 (mapDf2 d2c mappings) (keyCols.map fun p => p.1))
          (fun p => p.j == j)
          (pairHasMismatch (comparedCols (mappings.map fun p => p.1) d1.cols
            (mapDf2 d2c mappings).cols)),
        pairs_index_exists_B hj]

theorem C1_stats_partition_witness :
    ([("k", "k2")] : List (String × String)) ≠ [] ∧
    ∃ r, reconcile_core
        (⟨["k"], [[("k", Value.str "1")]]⟩ : DataFrame)
        (⟨["k2"], [[("k2", Value.str "1")]]⟩ : DataFrame)
        (⟨["k"], [[("k", Value.str "1")]]⟩ : DataFrame)
        (⟨["k2"], [[("k2", Value.str "1")]]⟩ : DataFrame)
        [("k", "k2")] [("k", "k2")] = .ok r ∧
      r.stats.matched + r.stats.mismatched =
        (matchedPairsOf (⟨["k"], [[("k", Value.str "1")]]⟩ : DataFrame)
          (mapDf2 (⟨["k2"], [[("k2", Value.str "1")]]⟩ : DataFrame) [("k", "k2")])
          ([("k", "k2")].map fun p => p.1)).length :=
  ⟨by decide, by
    obtain ⟨r, hok, h1, h2, h3, h4, h5, h6, h7, h8⟩ :=
      C1_stats_partition.2
        ⟨["k"], [[("k", Value.str "1")]]⟩ ⟨["k2"], [[("k2", Value.str "1")]]⟩
        ⟨["k"], [[("k", Value.str "1")]]⟩ ⟨["k2"], [[("k2", Value.str "1")]]⟩
        [("k", "k2")] [("k", "k2")] (by decide)
    exact ⟨r, hok, h3⟩⟩

end Reco
